import Mathlib

/-!
Verification of the sparse GPU lowering layer (`jaxlib/gpu_sparse.py`).

This file shallowly embeds the operation-lowering and descriptor protocol of
the module: MLIR ranked tensor types are modelled as a shape (list of
dimension sizes) plus an element type, the two native backends are modelled
as a record of descriptor-builder functions (the layer only ever observes
their `(bufferSize, blob)` answers), and the compiled-call primitive
`custom_call` is modelled as returning one result handle per declared result
type.  Python `assert` failures and tuple-unpacking failures inside the
validators are modelled as the spec's `ShapeMismatch` error; the lowering
functions return `Except` values carrying both the assembled call site and
the outputs the Python function returns, so that theorems can speak about
the emitted invocation as well as the visible results.
-/

/-- Numpy-level dtypes that flow into descriptor builders (`data_dtype`,
`index_dtype`, `compute_dtype`, and the tridiagonal precision `t`). -/
inductive Dtype where
  | f16 | f32 | f64 | c64 | c128 | i32 | i64
  deriving DecidableEq, Repr, Inhabited

/-- MLIR element types as used in `ir.RankedTensorType`; `i8` is the
signless 8-bit integer used for scratch buffers. -/
inductive EType where
  | f16 | f32 | f64 | i8 | i32 | i64 | c64 | c128
  deriving DecidableEq, Repr, Inhabited

/-- The MLIR element type corresponding to a numpy dtype (used only to state
that a dense operand's element type differs from a requested `data_dtype`). -/
def EType.ofDtype : Dtype → EType
  | Dtype.f16 => EType.f16
  | Dtype.f32 => EType.f32
  | Dtype.f64 => EType.f64
  | Dtype.c64 => EType.c64
  | Dtype.c128 => EType.c128
  | Dtype.i32 => EType.i32
  | Dtype.i64 => EType.i64

/-- A ranked tensor type: `ir.RankedTensorType` with a static shape and an
element type.  Operand values are modelled by their ranked tensor type,
which is all this layer ever reads from them. -/
structure TType where
  shape : List Nat
  etype : EType
  deriving DecidableEq, Repr, Inhabited

/-- The error taxonomy of the spec, plus `TypeError` for the Python-level
failure of building a ranked tensor type from `None` (possible when a caller
passes `compute_dtype` without `compute_type`). -/
inductive Err where
  | ShapeMismatch
  | UnsupportedConfiguration
  | BackendUnavailable
  | KernelFailure
  | TypeError
  deriving DecidableEq, Repr

/-- An opaque backend-produced configuration blob, modelled as raw bytes. -/
abbrev Blob : Type := List Nat

/-- One assembled backend invocation: everything `custom_call` receives. -/
structure CustomCallArgs where
  name : String
  result_types : List TType
  operands : List TType
  backend_config : Blob
  operand_layouts : List (List Nat)
  result_layouts : List (List Nat)
  deriving DecidableEq, Repr, Inhabited

/-- The compiled-call primitive (external collaborator): returns one result
handle per declared result type, in declared order. -/
def custom_call (c : CustomCallArgs) : List TType :=
  c.result_types

/-- A backend adapter (`_cusparse` / `_hipsparse`): the descriptor-builder
and buffer-size functions this layer queries.  Each takes only static
scalar parameters and answers `(bufferSize, blob)`. -/
structure GpuSparse where
  build_csr_todense_descriptor : Dtype → Dtype → Nat → Nat → Nat → Nat × Blob
  build_csr_fromdense_descriptor : Dtype → Dtype → Nat → Nat → Nat → Nat × Blob
  build_csr_matvec_descriptor :
    Dtype → Dtype → Dtype → Dtype → Nat → Nat → Nat → Bool → Nat × Blob
  build_csr_matmat_descriptor :
    Dtype → Dtype → Dtype → Dtype → Nat → Nat → Nat → Nat → Bool → Nat × Blob
  build_coo_todense_descriptor : Dtype → Dtype → Nat → Nat → Nat → Nat × Blob
  build_coo_fromdense_descriptor : Dtype → Dtype → Nat → Nat → Nat → Nat × Blob
  build_coo_matvec_descriptor :
    Dtype → Dtype → Dtype → Dtype → Nat → Nat → Nat → Bool → Nat × Blob
  build_coo_matmat_descriptor :
    Dtype → Dtype → Dtype → Dtype → Nat → Nat → Nat → Nat → Bool → Nat × Blob
  gtsv2_f32_buffer_size : Nat → Nat → Nat → Nat
  gtsv2_f64_buffer_size : Nat → Nat → Nat → Nat
  build_gtsv2_descriptor : Nat → Nat → Nat → Blob

/-- The CSR validator `_validate_csr_mhlo`: `nnz, = data.shape` (fails unless
`data` is 1-D), then the three asserts of the source in order; returns
`(element_type(data), element_type(indices), nnz)`.  It takes no backend
argument: it runs before any backend interaction. -/
def validate_csr_mhlo (data indices indptr : TType) (shape : Nat × Nat) :
    Except Err (EType × EType × Nat) :=
  match data.shape with
  | [nnz] =>
    if indices.shape = [nnz] ∧ indptr.etype = indices.etype ∧
        indptr.shape = [shape.1 + 1] then
      Except.ok (data.etype, indices.etype, nnz)
    else
      Except.error Err.ShapeMismatch
  | _ => Except.error Err.ShapeMismatch

/-- The COO validator `_validate_coo_mhlo`: `nnz, = data.shape`, then the
three asserts of the source in order; returns
`(element_type(data), element_type(row), nnz)`. -/
def validate_coo_mhlo (data row col : TType) (_shape : Nat × Nat) :
    Except Err (EType × EType × Nat) :=
  match data.shape with
  | [nnz] =>
    if row.shape = [nnz] ∧ col.etype = row.etype ∧ col.shape = [nnz] then
      Except.ok (data.etype, row.etype, nnz)
    else
      Except.error Err.ShapeMismatch
  | _ => Except.error Err.ShapeMismatch

/-- `_csr_todense_mhlo`: validate, query the descriptor builder, emit one
call site, return `out[0]` (modelled as the one-element prefix of the
result handles). -/
def csr_todense_mhlo (platform : String) (gs : GpuSparse)
    (data indices indptr : TType) (shape : Nat × Nat)
    (data_dtype index_dtype : Dtype) :
    Except Err (CustomCallArgs × List TType) :=
  match validate_csr_mhlo data indices indptr shape with
  | Except.error e => Except.error e
  | Except.ok (data_type, _index_type, nnz) =>
    let rows := shape.1
    let cols := shape.2
    let bd := gs.build_csr_todense_descriptor data_dtype index_dtype rows cols nnz
    let call : CustomCallArgs :=
      { name := platform ++ "sparse_csr_todense"
        result_types := [⟨[rows, cols], data_type⟩, ⟨[bd.1], EType.i8⟩]
        operands := [data, indices, indptr]
        backend_config := bd.2
        operand_layouts := [[0], [0], [0]]
        result_layouts := [[1, 0], [0]] }
    Except.ok (call, (custom_call call).take 1)

/-- `_csr_fromdense_mhlo`: `rows, cols = mat.shape` (fails unless `mat` is
2-D), query the descriptor builder, emit one call site, return `out[:3]`. -/
def csr_fromdense_mhlo (platform : String) (gs : GpuSparse)
    (mat : TType) (nnz : Nat) (index_dtype data_dtype : Dtype)
    (index_type : EType) :
    Except Err (CustomCallArgs × List TType) :=
  match mat.shape with
  | [rows, cols] =>
    let bd := gs.build_csr_fromdense_descriptor data_dtype index_dtype rows cols nnz
    let call : CustomCallArgs :=
      { name := platform ++ "sparse_csr_fromdense"
        result_types := [⟨[nnz], mat.etype⟩, ⟨[nnz], index_type⟩,
          ⟨[rows + 1], index_type⟩, ⟨[bd.1], EType.i8⟩]
        operands := [mat]
        backend_config := bd.2
        operand_layouts := [[1, 0]]
        result_layouts := [[0], [0], [0], [0]] }
    Except.ok (call, (custom_call call).take 3)
  | _ => Except.error Err.ShapeMismatch

/-- `_csr_matvec_mhlo`: validate, default the compute type to `data`'s when
`compute_dtype` is absent (the source sets both `compute_dtype` and
`compute_type` in that branch), query the descriptor builder, emit one call
site of result shape `[out_size]` with `out_size = cols if transpose else
rows`, return `out[0]`. -/
def csr_matvec_mhlo (platform : String) (gs : GpuSparse)
    (data indices indptr x : TType) (shape : Nat × Nat) (transpose : Bool)
    (compute_dtype : Option Dtype) (compute_type : Option EType)
    (data_dtype index_dtype x_dtype : Dtype) :
    Except Err (CustomCallArgs × List TType) :=
  match validate_csr_mhlo data indices indptr shape with
  | Except.error e => Except.error e
  | Except.ok (data_type, _index_type, nnz) =>
    let rows := shape.1
    let cols := shape.2
    let cd : Dtype := match compute_dtype with
      | none => data_dtype
      | some c => c
    let ct : Option EType := match compute_dtype with
      | none => some data_type
      | some _ => compute_type
    match ct with
    | none => Except.error Err.TypeError
    | some compute_ty =>
      let bd := gs.build_csr_matvec_descriptor data_dtype x_dtype cd index_dtype
        rows cols nnz transpose
      let out_size := if transpose then cols else rows
      let call : CustomCallArgs :=
        { name := platform ++ "sparse_csr_matvec"
          result_types := [⟨[out_size], compute_ty⟩, ⟨[bd.1], EType.i8⟩]
          operands := [data, indices, indptr, x]
          backend_config := bd.2
          operand_layouts := [[0], [0], [0], [0]]
          result_layouts := [[0], [0]] }
      Except.ok (call, (custom_call call).take 1)

/-- `_csr_matmat_mhlo`: validate, read `Ccols` from `B`'s 2-D shape (fails
unless `B` is 2-D), default the compute type, query the descriptor builder,
emit one call site of result shape `[out_size, Ccols]`, return `out[0]`. -/
def csr_matmat_mhlo (platform : String) (gs : GpuSparse)
    (data indices indptr B : TType) (shape : Nat × Nat) (transpose : Bool)
    (compute_dtype : Option Dtype) (compute_type : Option EType)
    (index_dtype data_dtype B_dtype : Dtype) :
    Except Err (CustomCallArgs × List TType) :=
  match validate_csr_mhlo data indices indptr shape with
  | Except.error e => Except.error e
  | Except.ok (data_type, _index_type, nnz) =>
    let rows := shape.1
    let cols := shape.2
    match B.shape with
    | [_Brows, Ccols] =>
      let cd : Dtype := match compute_dtype with
        | none => data_dtype
        | some c => c
      let ct : Option EType := match compute_dtype with
        | none => some data_type
        | some _ => compute_type
      match ct with
      | none => Except.error Err.TypeError
      | some compute_ty =>
        let bd := gs.build_csr_matmat_descriptor data_dtype B_dtype cd index_dtype
          rows cols Ccols nnz transpose
        let out_size := if transpose then cols else rows
        let call : CustomCallArgs :=
          { name := platform ++ "sparse_csr_matmat"
            result_types := [⟨[out_size, Ccols], compute_ty⟩, ⟨[bd.1], EType.i8⟩]
            operands := [data, indices, indptr, B]
            backend_config := bd.2
            operand_layouts := [[0], [0], [0], [1, 0]]
            result_layouts := [[1, 0], [0]] }
        Except.ok (call, (custom_call call).take 1)
    | _ => Except.error Err.ShapeMismatch

/-- `_coo_todense_mhlo`: validate, query the descriptor builder, emit one
call site, return `out[0]`. -/
def coo_todense_mhlo (platform : String) (gs : GpuSparse)
    (data row col : TType) (shape : Nat × Nat)
    (data_dtype index_dtype : Dtype) :
    Except Err (CustomCallArgs × List TType) :=
  match validate_coo_mhlo data row col shape with
  | Except.error e => Except.error e
  | Except.ok (data_type, _index_type, nnz) =>
    let rows := shape.1
    let cols := shape.2
    let bd := gs.build_coo_todense_descriptor data_dtype index_dtype rows cols nnz
    let call : CustomCallArgs :=
      { name := platform ++ "sparse_coo_todense"
        result_types := [⟨[rows, cols], data_type⟩, ⟨[bd.1], EType.i8⟩]
        operands := [data, row, col]
        backend_config := bd.2
        operand_layouts := [[0], [0], [0]]
        result_layouts := [[1, 0], [0]] }
    Except.ok (call, (custom_call call).take 1)

/-- `_coo_fromdense_mhlo`: `rows, cols = mat.shape`, query the descriptor
builder, emit one call site, return `out[:3]`. -/
def coo_fromdense_mhlo (platform : String) (gs : GpuSparse)
    (mat : TType) (nnz : Nat) (data_dtype index_dtype : Dtype)
    (index_type : EType) :
    Except Err (CustomCallArgs × List TType) :=
  match mat.shape with
  | [rows, cols] =>
    let bd := gs.build_coo_fromdense_descriptor data_dtype index_dtype rows cols nnz
    let call : CustomCallArgs :=
      { name := platform ++ "sparse_coo_fromdense"
        result_types := [⟨[nnz], mat.etype⟩, ⟨[nnz], index_type⟩,
          ⟨[nnz], index_type⟩, ⟨[bd.1], EType.i8⟩]
        operands := [mat]
        backend_config := bd.2
        operand_layouts := [[1, 0]]
        result_layouts := [[0], [0], [0], [0]] }
    Except.ok (call, (custom_call call).take 3)
  | _ => Except.error Err.ShapeMismatch

/-- `_coo_matvec_mhlo`: validate, default the compute type, query the
descriptor builder, emit one call site of result shape `[out_size]`,
return `out[0]`. -/
def coo_matvec_mhlo (platform : String) (gs : GpuSparse)
    (data row col x : TType) (shape : Nat × Nat) (transpose : Bool)
    (compute_dtype : Option Dtype) (compute_type : Option EType)
    (index_dtype data_dtype x_dtype : Dtype) :
    Except Err (CustomCallArgs × List TType) :=
  match validate_coo_mhlo data row col shape with
  | Except.error e => Except.error e
  | Except.ok (data_type, _index_type, nnz) =>
    let rows := shape.1
    let cols := shape.2
    let cd : Dtype := match compute_dtype with
      | none => data_dtype
      | some c => c
    let ct : Option EType := match compute_dtype with
      | none => some data_type
      | some _ => compute_type
    match ct with
    | none => Except.error Err.TypeError
    | some compute_ty =>
      let bd := gs.build_coo_matvec_descriptor data_dtype x_dtype cd index_dtype
        rows cols nnz transpose
      let out_size := if transpose then cols else rows
      let call : CustomCallArgs :=
        { name := platform ++ "sparse_coo_matvec"
          result_types := [⟨[out_size], compute_ty⟩, ⟨[bd.1], EType.i8⟩]
          operands := [data, row, col, x]
          backend_config := bd.2
          operand_layouts := [[0], [0], [0], [0]]
          result_layouts := [[0], [0]] }
      Except.ok (call, (custom_call call).take 1)

/-- `_coo_matmat_mhlo`: validate, read `Ccols` from `B`'s 2-D shape, default
the compute type, query the descriptor builder, emit one call site of result
shape `[out_size, Ccols]`, return `out[0]`. -/
def coo_matmat_mhlo (platform : String) (gs : GpuSparse)
    (data row col B : TType) (shape : Nat × Nat) (transpose : Bool)
    (compute_dtype : Option Dtype) (compute_type : Option EType)
    (x_dtype data_dtype index_dtype : Dtype) :
    Except Err (CustomCallArgs × List TType) :=
  match validate_coo_mhlo data row col shape with
  | Except.error e => Except.error e
  | Except.ok (data_type, _index_type, nnz) =>
    let rows := shape.1
    let cols := shape.2
    match B.shape with
    | [_Brows, Ccols] =>
      let cd : Dtype := match compute_dtype with
        | none => data_dtype
        | some c => c
      let ct : Option EType := match compute_dtype with
        | none => some data_type
        | some _ => compute_type
      match ct with
      | none => Except.error Err.TypeError
      | some compute_ty =>
        let bd := gs.build_coo_matmat_descriptor data_dtype x_dtype cd index_dtype
          rows cols Ccols nnz transpose
        let out_size := if transpose then cols else rows
        let call : CustomCallArgs :=
          { name := platform ++ "sparse_coo_matmat"
            result_types := [⟨[out_size, Ccols], compute_ty⟩, ⟨[bd.1], EType.i8⟩]
            operands := [data, row, col, B]
            backend_config := bd.2
            operand_layouts := [[0], [0], [0], [1, 0]]
            result_layouts := [[1, 0], [0]] }
        Except.ok (call, (custom_call call).take 1)
    | _ => Except.error Err.ShapeMismatch

/-- `_gtsv2_mhlo`: branches only on `t == np.float32`; every other `t` takes
the f64 path.  Queries the matching buffer-size function, emits one call
site named with the matching suffix, returns `out[0]`.  The source performs
no precision check and never fails at this layer. -/
def gtsv2_mhlo (platform : String) (gs : GpuSparse)
    (dl d du B : TType) (m n ldb : Nat) (t : Dtype) :
    Except Err (CustomCallArgs × List TType) :=
  let f32 : Bool := decide (t = Dtype.f32)
  let buffer_size :=
    if f32 then gs.gtsv2_f32_buffer_size m n ldb
    else gs.gtsv2_f64_buffer_size m n ldb
  let call : CustomCallArgs :=
    { name := platform ++ "sparse_gtsv2_" ++ (if f32 then "f32" else "f64")
      result_types := [⟨[ldb, n], if f32 then EType.f32 else EType.f64⟩,
        ⟨[buffer_size], EType.i8⟩]
      operands := [dl, d, du, B]
      backend_config := gs.build_gtsv2_descriptor m n ldb
      operand_layouts := [[0], [0], [0], [1, 0]]
      result_layouts := [[1, 0], [0]] }
  Except.ok (call, (custom_call call).take 1)

/-- Modelled from the spec: the caller/catalog layer (not part of
`src/jaxlib/gpu_sparse.py`; only the capability flags it reads are declared
there) checks a backend's capability flag before requesting any operation,
and fails with `BackendUnavailable` before descriptor construction when the
flag is false. -/
def catalog_invoke {α : Type} (flag : Bool) (op : GpuSparse → Except Err α)
    (gs : GpuSparse) : Except Err α :=
  if flag then op gs else Except.error Err.BackendUnavailable

/-- A native sparse library as this layer sees it: present or absent, and,
when present, whether it reports sparse support (`cusparse_supported` /
`hipsparse_supported`). -/
structure SparseLib where
  sparse_supported : Bool
  deriving DecidableEq, Repr

/-- Python truthiness of `lib and lib.X_supported`: falsy when the import
failed (`lib is None`), otherwise the library's own support flag. -/
def supported_flag (m : Option SparseLib) : Bool :=
  match m with
  | none => false
  | some lib => lib.sparse_supported

/-- The process-wide state this layer owns: the two capability flags
`cuda_is_supported` and `rocm_is_supported`. -/
structure ProcessState where
  cuda_is_supported : Bool
  rocm_is_supported : Bool
  deriving DecidableEq, Repr

/-- Module load (lines 28-46 of the source): each flag is computed once from
the optional import of the backend library. -/
def module_load (cu hip : Option SparseLib) : ProcessState :=
  ⟨supported_flag cu, supported_flag hip⟩

/-- Invoking any operation of this layer against the process state: every
operation is a pure function of its explicit arguments (none reads or
assigns the module-level flags after load), so the state passes through
unchanged. -/
def invoke (st : ProcessState)
    (op : Unit → Except Err (CustomCallArgs × List TType)) :
    Except Err (CustomCallArgs × List TType) × ProcessState :=
  (op (), st)

/-- The call site assembled by a successful lowering. -/
def okCall (r : Except Err (CustomCallArgs × List TType)) : CustomCallArgs :=
  match r with
  | Except.ok (c, _) => c
  | Except.error _ => default

/-- The outputs a successful lowering hands back to the caller. -/
def okOuts (r : Except Err (CustomCallArgs × List TType)) : List TType :=
  match r with
  | Except.ok (_, outs) => outs
  | Except.error _ => []

/-- A concrete backend stand-in used to evaluate the lowering functions in
witness theorems; each builder answers a distinct size and blob. -/
def testBackend : GpuSparse :=
  { build_csr_todense_descriptor := fun _ _ _ _ _ => (11, [1])
    build_csr_fromdense_descriptor := fun _ _ _ _ _ => (12, [2])
    build_csr_matvec_descriptor := fun _ _ _ _ _ _ _ _ => (13, [3])
    build_csr_matmat_descriptor := fun _ _ _ _ _ _ _ _ _ => (14, [4])
    build_coo_todense_descriptor := fun _ _ _ _ _ => (15, [5])
    build_coo_fromdense_descriptor := fun _ _ _ _ _ => (16, [6])
    build_coo_matvec_descriptor := fun _ _ _ _ _ _ _ _ => (17, [7])
    build_coo_matmat_descriptor := fun _ _ _ _ _ _ _ _ _ => (18, [8])
    gtsv2_f32_buffer_size := fun _ _ _ => 21
    gtsv2_f64_buffer_size := fun _ _ _ => 22
    build_gtsv2_descriptor := fun _ _ _ => [9] }

/-- Characterisation of a successful CSR validation. -/
theorem validate_csr_mhlo_ok {data indices indptr : TType} {s : Nat × Nat}
    {dt it : EType} {n : Nat}
    (h : validate_csr_mhlo data indices indptr s = Except.ok (dt, it, n)) :
    data.shape = [n] ∧ indices.shape = [n] ∧ indptr.etype = indices.etype ∧
      indptr.shape = [s.1 + 1] ∧ dt = data.etype ∧ it = indices.etype := by
  unfold validate_csr_mhlo at h
  split at h
  case h_1 nnz heq =>
    split at h
    case isTrue hc =>
      obtain ⟨h1, h2, h3⟩ := hc
      simp only [Except.ok.injEq, Prod.mk.injEq] at h
      obtain ⟨hdt, hit, hn⟩ := h
      subst hn
      exact ⟨heq, h1, h2, h3, hdt.symm, hit.symm⟩
    case isFalse hc => exact absurd h (by simp)
  case h_2 => exact absurd h (by simp)

/-- Characterisation of a successful COO validation. -/
theorem validate_coo_mhlo_ok {data row col : TType} {s : Nat × Nat}
    {dt it : EType} {n : Nat}
    (h : validate_coo_mhlo data row col s = Except.ok (dt, it, n)) :
    data.shape = [n] ∧ row.shape = [n] ∧ col.etype = row.etype ∧
      col.shape = [n] ∧ dt = data.etype ∧ it = row.etype := by
  unfold validate_coo_mhlo at h
  split at h
  case h_1 nnz heq =>
    split at h
    case isTrue hc =>
      obtain ⟨h1, h2, h3⟩ := hc
      simp only [Except.ok.injEq, Prod.mk.injEq] at h
      obtain ⟨hdt, hit, hn⟩ := h
      subst hn
      exact ⟨heq, h1, h2, h3, hdt.symm, hit.symm⟩
    case isFalse hc => exact absurd h (by simp)
  case h_2 => exact absurd h (by simp)

/-- C3: the CSR validator, given `data` of length `nnz`, fails with
`ShapeMismatch` unless `length(indices) = nnz`, `element_type(indptr) =
element_type(indices)` and `length(indptr) = rows + 1`; when those hold it
returns `(element_type(data), element_type(indices), nnz)`.  The validator
takes no backend argument, so the failure happens before any backend
interaction. -/
theorem validate_csr_contract (data indices indptr : TType)
    (rows cols nnz : Nat) (hd : data.shape = [nnz]) :
    (indices.shape = [nnz] ∧ indptr.etype = indices.etype ∧
        indptr.shape = [rows + 1] →
      validate_csr_mhlo data indices indptr (rows, cols) =
        Except.ok (data.etype, indices.etype, nnz))
    ∧ (¬(indices.shape = [nnz] ∧ indptr.etype = indices.etype ∧
        indptr.shape = [rows + 1]) →
      validate_csr_mhlo data indices indptr (rows, cols) =
        Except.error Err.ShapeMismatch) := by
  unfold validate_csr_mhlo
  rw [hd]
  constructor
  · intro hc
    simp only []
    rw [if_pos hc]
  · intro hc
    simp only []
    rw [if_neg hc]

/-- Witness for C3: a concrete valid CSR triple validates, and one whose
`indices` length differs from `data`'s fails with `ShapeMismatch`. -/
theorem validate_csr_contract_witness :
    validate_csr_mhlo ⟨[3], EType.f32⟩ ⟨[3], EType.i32⟩ ⟨[4], EType.i32⟩
      (3, 3) = Except.ok (EType.f32, EType.i32, 3)
    ∧ validate_csr_mhlo ⟨[3], EType.f32⟩ ⟨[2], EType.i32⟩ ⟨[4], EType.i32⟩
      (3, 3) = Except.error Err.ShapeMismatch :=
  ⟨(validate_csr_contract ⟨[3], EType.f32⟩ ⟨[3], EType.i32⟩ ⟨[4], EType.i32⟩
      3 3 3 rfl).1 (by decide),
   (validate_csr_contract ⟨[3], EType.f32⟩ ⟨[2], EType.i32⟩ ⟨[4], EType.i32⟩
      3 3 3 rfl).2 (by decide)⟩

/-- C4: the COO validator, given `data` of length `nnz`, fails with
`ShapeMismatch` unless `length(row) = nnz`, `element_type(col) =
element_type(row)` and `length(col) = nnz`; when those hold it returns
`(element_type(data), element_type(row), nnz)`.  In particular a triple
whose `row` and `col` element types differ fails with `ShapeMismatch`. -/
theorem validate_coo_contract (data row col : TType) (shape : Nat × Nat)
    (nnz : Nat) (hd : data.shape = [nnz]) :
    (row.shape = [nnz] ∧ col.etype = row.etype ∧ col.shape = [nnz] →
      validate_coo_mhlo data row col shape =
        Except.ok (data.etype, row.etype, nnz))
    ∧ (¬(row.shape = [nnz] ∧ col.etype = row.etype ∧ col.shape = [nnz]) →
      validate_coo_mhlo data row col shape = Except.error Err.ShapeMismatch)
    ∧ (col.etype ≠ row.etype →
      validate_coo_mhlo data row col shape =
        Except.error Err.ShapeMismatch) := by
  unfold validate_coo_mhlo
  rw [hd]
  refine ⟨fun hc => ?_, fun hc => ?_, fun hne => ?_⟩
  · simp only []
    rw [if_pos hc]
  · simp only []
    rw [if_neg hc]
  · simp only []
    rw [if_neg (fun hc => hne hc.2.1)]

/-- Witness for C4: a concrete valid COO triple validates, and the same
triple with differing `row`/`col` element types fails with
`ShapeMismatch`. -/
theorem validate_coo_contract_witness :
    validate_coo_mhlo ⟨[2], EType.f32⟩ ⟨[2], EType.i32⟩ ⟨[2], EType.i32⟩
      (2, 2) = Except.ok (EType.f32, EType.i32, 2)
    ∧ validate_coo_mhlo ⟨[2], EType.f32⟩ ⟨[2], EType.i32⟩ ⟨[2], EType.i64⟩
      (2, 2) = Except.error Err.ShapeMismatch :=
  ⟨(validate_coo_contract ⟨[2], EType.f32⟩ ⟨[2], EType.i32⟩ ⟨[2], EType.i32⟩
      (2, 2) 2 rfl).1 (by decide),
   (validate_coo_contract ⟨[2], EType.f32⟩ ⟨[2], EType.i32⟩ ⟨[2], EType.i64⟩
      (2, 2) 2 rfl).2.2 (by decide)⟩

/-- A successful CSR to-dense lowering, written out in full. -/
theorem csr_todense_mhlo_ok_eq {pl : String} {gs : GpuSparse}
    {data indices indptr : TType} {shape : Nat × Nat} {dd idt : Dtype}
    (h : (csr_todense_mhlo pl gs data indices indptr shape dd idt).isOk = true) :
    csr_todense_mhlo pl gs data indices indptr shape dd idt =
      Except.ok
        (⟨pl ++ "sparse_csr_todense",
          [⟨[shape.1, shape.2], data.etype⟩,
            ⟨[(gs.build_csr_todense_descriptor dd idt shape.1 shape.2
                (data.shape.headD 0)).1], EType.i8⟩],
          [data, indices, indptr],
          (gs.build_csr_todense_descriptor dd idt shape.1 shape.2
            (data.shape.headD 0)).2,
          [[0], [0], [0]],
          [[1, 0], [0]]⟩,
        [⟨[shape.1, shape.2], data.etype⟩]) := by
  unfold csr_todense_mhlo at h ⊢
  cases hv : validate_csr_mhlo data indices indptr shape with
  | error e => rw [hv] at h; simp [Except.isOk, Except.toBool] at h
  | ok v =>
    obtain ⟨dt, it, nnz⟩ := v
    obtain ⟨h1, _, _, _, h5, _⟩ := validate_csr_mhlo_ok hv
    subst h5
    simp [custom_call, h1]

/-- A successful COO to-dense lowering, written out in full. -/
theorem coo_todense_mhlo_ok_eq {pl : String} {gs : GpuSparse}
    {data row col : TType} {shape : Nat × Nat} {dd idt : Dtype}
    (h : (coo_todense_mhlo pl gs data row col shape dd idt).isOk = true) :
    coo_todense_mhlo pl gs data row col shape dd idt =
      Except.ok
        (⟨pl ++ "sparse_coo_todense",
          [⟨[shape.1, shape.2], data.etype⟩,
            ⟨[(gs.build_coo_todense_descriptor dd idt shape.1 shape.2
                (data.shape.headD 0)).1], EType.i8⟩],
          [data, row, col],
          (gs.build_coo_todense_descriptor dd idt shape.1 shape.2
            (data.shape.headD 0)).2,
          [[0], [0], [0]],
          [[1, 0], [0]]⟩,
        [⟨[shape.1, shape.2], data.etype⟩]) := by
  unfold coo_todense_mhlo at h ⊢
  cases hv : validate_coo_mhlo data row col shape with
  | error e => rw [hv] at h; simp [Except.isOk, Except.toBool] at h
  | ok v =>
    obtain ⟨dt, it, nnz⟩ := v
    obtain ⟨h1, _, _, _, h5, _⟩ := validate_coo_mhlo_ok hv
    subst h5
    simp [custom_call, h1]

/-- A successful CSR from-dense lowering, written out in full. -/
theorem csr_fromdense_mhlo_ok_eq {pl : String} {gs : GpuSparse} {mat : TType}
    {nnz : Nat} {idt dd : Dtype} {it : EType}
    (h : (csr_fromdense_mhlo pl gs mat nnz idt dd it).isOk = true) :
    csr_fromdense_mhlo pl gs mat nnz idt dd it =
      Except.ok
        (⟨pl ++ "sparse_csr_fromdense",
          [⟨[nnz], mat.etype⟩, ⟨[nnz], it⟩,
            ⟨[mat.shape.headD 0 + 1], it⟩,
            ⟨[(gs.build_csr_fromdense_descriptor dd idt (mat.shape.headD 0)
                (mat.shape.getD 1 0) nnz).1], EType.i8⟩],
          [mat],
          (gs.build_csr_fromdense_descriptor dd idt (mat.shape.headD 0)
            (mat.shape.getD 1 0) nnz).2,
          [[1, 0]],
          [[0], [0], [0], [0]]⟩,
        [⟨[nnz], mat.etype⟩, ⟨[nnz], it⟩, ⟨[mat.shape.headD 0 + 1], it⟩]) := by
  unfold csr_fromdense_mhlo at h ⊢
  cases hs : mat.shape with
  | nil => rw [hs] at h; simp [Except.isOk, Except.toBool] at h
  | cons a l =>
    cases l with
    | nil => rw [hs] at h; simp [Except.isOk, Except.toBool] at h
    | cons b l2 =>
      cases l2 with
      | nil => simp [custom_call]
      | cons c l3 => rw [hs] at h; simp [Except.isOk, Except.toBool] at h

/-- A successful COO from-dense lowering, written out in full. -/
theorem coo_fromdense_mhlo_ok_eq {pl : String} {gs : GpuSparse} {mat : TType}
    {nnz : Nat} {dd idt : Dtype} {it : EType}
    (h : (coo_fromdense_mhlo pl gs mat nnz dd idt it).isOk = true) :
    coo_fromdense_mhlo pl gs mat nnz dd idt it =
      Except.ok
        (⟨pl ++ "sparse_coo_fromdense",
          [⟨[nnz], mat.etype⟩, ⟨[nnz], it⟩, ⟨[nnz], it⟩,
            ⟨[(gs.build_coo_fromdense_descriptor dd idt (mat.shape.headD 0)
                (mat.shape.getD 1 0) nnz).1], EType.i8⟩],
          [mat],
          (gs.build_coo_fromdense_descriptor dd idt (mat.shape.headD 0)
            (mat.shape.getD 1 0) nnz).2,
          [[1, 0]],
          [[0], [0], [0], [0]]⟩,
        [⟨[nnz], mat.etype⟩, ⟨[nnz], it⟩, ⟨[nnz], it⟩]) := by
  unfold coo_fromdense_mhlo at h ⊢
  cases hs : mat.shape with
  | nil => rw [hs] at h; simp [Except.isOk, Except.toBool] at h
  | cons a l =>
    cases l with
    | nil => rw [hs] at h; simp [Except.isOk, Except.toBool] at h
    | cons b l2 =>
      cases l2 with
      | nil => simp [custom_call]
      | cons c l3 => rw [hs] at h; simp [Except.isOk, Except.toBool] at h

/-- The tridiagonal lowering never fails and is determined by `t = f32`. -/
theorem gtsv2_mhlo_eq (pl : String) (gs : GpuSparse) (dl d du B : TType)
    (m n ldb : Nat) (t : Dtype) :
    gtsv2_mhlo pl gs dl d du B m n ldb t =
      Except.ok
        (⟨pl ++ "sparse_gtsv2_" ++ (if t = Dtype.f32 then "f32" else "f64"),
          [⟨[ldb, n], if t = Dtype.f32 then EType.f32 else EType.f64⟩,
            ⟨[if t = Dtype.f32 then gs.gtsv2_f32_buffer_size m n ldb
              else gs.gtsv2_f64_buffer_size m n ldb], EType.i8⟩],
          [dl, d, du, B],
          gs.build_gtsv2_descriptor m n ldb,
          [[0], [0], [0], [1, 0]],
          [[1, 0], [0]]⟩,
        [⟨[ldb, n], if t = Dtype.f32 then EType.f32 else EType.f64⟩]) := by
  unfold gtsv2_mhlo
  by_cases ht : t = Dtype.f32
  · simp [custom_call, ht]
  · simp [custom_call, ht]

/-- A successful CSR mat-vec lowering with defaulted compute type. -/
theorem csr_matvec_mhlo_none_eq {pl : String} {gs : GpuSparse}
    {data indices indptr x : TType} {shape : Nat × Nat} {tr : Bool}
    {ctp : Option EType} {dd idt xd : Dtype}
    (h : (csr_matvec_mhlo pl gs data indices indptr x shape tr none ctp
      dd idt xd).isOk = true) :
    csr_matvec_mhlo pl gs data indices indptr x shape tr none ctp dd idt xd =
      Except.ok
        (⟨pl ++ "sparse_csr_matvec",
          [⟨[if tr then shape.2 else shape.1], data.etype⟩,
            ⟨[(gs.build_csr_matvec_descriptor dd xd dd idt shape.1 shape.2
                (data.shape.headD 0) tr).1], EType.i8⟩],
          [data, indices, indptr, x],
          (gs.build_csr_matvec_descriptor dd xd dd idt shape.1 shape.2
            (data.shape.headD 0) tr).2,
          [[0], [0], [0], [0]],
          [[0], [0]]⟩,
        [⟨[if tr then shape.2 else shape.1], data.etype⟩]) := by
  unfold csr_matvec_mhlo at h ⊢
  cases hv : validate_csr_mhlo data indices indptr shape with
  | error e => rw [hv] at h; simp [Except.isOk, Except.toBool] at h
  | ok v =>
    obtain ⟨dt, it, nnz⟩ := v
    obtain ⟨h1, _, _, _, h5, _⟩ := validate_csr_mhlo_ok hv
    subst h5
    simp [custom_call, h1]

/-- A successful CSR mat-vec lowering with caller-specified compute type. -/
theorem csr_matvec_mhlo_some_eq {pl : String} {gs : GpuSparse}
    {data indices indptr x : TType} {shape : Nat × Nat} {tr : Bool}
    {cd : Dtype} {ct : EType} {dd idt xd : Dtype}
    (h : (csr_matvec_mhlo pl gs data indices indptr x shape tr (some cd)
      (some ct) dd idt xd).isOk = true) :
    csr_matvec_mhlo pl gs data indices indptr x shape tr (some cd) (some ct)
        dd idt xd =
      Except.ok
        (⟨pl ++ "sparse_csr_matvec",
          [⟨[if tr then shape.2 else shape.1], ct⟩,
            ⟨[(gs.build_csr_matvec_descriptor dd xd cd idt shape.1 shape.2
                (data.shape.headD 0) tr).1], EType.i8⟩],
          [data, indices, indptr, x],
          (gs.build_csr_matvec_descriptor dd xd cd idt shape.1 shape.2
            (data.shape.headD 0) tr).2,
          [[0], [0], [0], [0]],
          [[0], [0]]⟩,
        [⟨[if tr then shape.2 else shape.1], ct⟩]) := by
  unfold csr_matvec_mhlo at h ⊢
  cases hv : validate_csr_mhlo data indices indptr shape with
  | error e => rw [hv] at h; simp [Except.isOk, Except.toBool] at h
  | ok v =>
    obtain ⟨dt, it, nnz⟩ := v
    obtain ⟨h1, _, _, _, h5, _⟩ := validate_csr_mhlo_ok hv
    subst h5
    simp [custom_call, h1]

/-- A CSR mat-vec call with `compute_dtype` given but `compute_type` absent
never succeeds (the source would crash building the result type). -/
theorem csr_matvec_mhlo_some_none {pl : String} {gs : GpuSparse}
    {data indices indptr x : TType} {shape : Nat × Nat} {tr : Bool}
    {cd : Dtype} {dd idt xd : Dtype} :
    (csr_matvec_mhlo pl gs data indices indptr x shape tr (some cd) none
      dd idt xd).isOk = false := by
  unfold csr_matvec_mhlo
  cases hv : validate_csr_mhlo data indices indptr shape with
  | error e => simp [Except.isOk, Except.toBool]
  | ok v =>
    obtain ⟨dt, it, nnz⟩ := v
    simp [Except.isOk, Except.toBool]

/-- A successful CSR mat-mat lowering with defaulted compute type. -/
theorem csr_matmat_mhlo_none_eq {pl : String} {gs : GpuSparse}
    {data indices indptr B : TType} {shape : Nat × Nat} {tr : Bool}
    {ctp : Option EType} {idt dd Bd : Dtype}
    (h : (csr_matmat_mhlo pl gs data indices indptr B shape tr none ctp
      idt dd Bd).isOk = true) :
    csr_matmat_mhlo pl gs data indices indptr B shape tr none ctp idt dd Bd =
      Except.ok
        (⟨pl ++ "sparse_csr_matmat",
          [⟨[if tr then shape.2 else shape.1, B.shape.getD 1 0], data.etype⟩,
            ⟨[(gs.build_csr_matmat_descriptor dd Bd dd idt shape.1 shape.2
                (B.shape.getD 1 0) (data.shape.headD 0) tr).1], EType.i8⟩],
          [data, indices, indptr, B],
          (gs.build_csr_matmat_descriptor dd Bd dd idt shape.1 shape.2
            (B.shape.getD 1 0) (data.shape.headD 0) tr).2,
          [[0], [0], [0], [1, 0]],
          [[1, 0], [0]]⟩,
        [⟨[if tr then shape.2 else shape.1, B.shape.getD 1 0], data.etype⟩]) := by
  unfold csr_matmat_mhlo at h ⊢
  cases hv : validate_csr_mhlo data indices indptr shape with
  | error e => rw [hv] at h; simp [Except.isOk, Except.toBool] at h
  | ok v =>
    obtain ⟨dt, it, nnz⟩ := v
    obtain ⟨h1, _, _, _, h5, _⟩ := validate_csr_mhlo_ok hv
    subst h5
    cases hB : B.shape with
    | nil => rw [hv, hB] at h; simp [Except.isOk, Except.toBool] at h
    | cons a l =>
      cases l with
      | nil => rw [hv, hB] at h; simp [Except.isOk, Except.toBool] at h
      | cons b l2 =>
        cases l2 with
        | nil => simp [custom_call, h1]
        | cons c l3 => rw [hv, hB] at h; simp [Except.isOk, Except.toBool] at h

/-- A successful CSR mat-mat lowering with caller-specified compute type. -/
theorem csr_matmat_mhlo_some_eq {pl : String} {gs : GpuSparse}
    {data indices indptr B : TType} {shape : Nat × Nat} {tr : Bool}
    {cd : Dtype} {ct : EType} {idt dd Bd : Dtype}
    (h : (csr_matmat_mhlo pl gs data indices indptr B shape tr (some cd)
      (some ct) idt dd Bd).isOk = true) :
    csr_matmat_mhlo pl gs data indices indptr B shape tr (some cd) (some ct)
        idt dd Bd =
      Except.ok
        (⟨pl ++ "sparse_csr_matmat",
          [⟨[if tr then shape.2 else shape.1, B.shape.getD 1 0], ct⟩,
            ⟨[(gs.build_csr_matmat_descriptor dd Bd cd idt shape.1 shape.2
                (B.shape.getD 1 0) (data.shape.headD 0) tr).1], EType.i8⟩],
          [data, indices, indptr, B],
          (gs.build_csr_matmat_descriptor dd Bd cd idt shape.1 shape.2
            (B.shape.getD 1 0) (data.shape.headD 0) tr).2,
          [[0], [0], [0], [1, 0]],
          [[1, 0], [0]]⟩,
        [⟨[if tr then shape.2 else shape.1, B.shape.getD 1 0], ct⟩]) := by
  unfold csr_matmat_mhlo at h ⊢
  cases hv : validate_csr_mhlo data indices indptr shape with
  | error e => rw [hv] at h; simp [Except.isOk, Except.toBool] at h
  | ok v =>
    obtain ⟨dt, it, nnz⟩ := v
    obtain ⟨h1, _, _, _, h5, _⟩ := validate_csr_mhlo_ok hv
    subst h5
    cases hB : B.shape with
    | nil => rw [hv, hB] at h; simp [Except.isOk, Except.toBool] at h
    | cons a l =>
      cases l with
      | nil => rw [hv, hB] at h; simp [Except.isOk, Except.toBool] at h
      | cons b l2 =>
        cases l2 with
        | nil => simp [custom_call, h1]
        | cons c l3 => rw [hv, hB] at h; simp [Except.isOk, Except.toBool] at h

/-- A CSR mat-mat call with `compute_dtype` given but `compute_type` absent
never succeeds. -/
theorem csr_matmat_mhlo_some_none {pl : String} {gs : GpuSparse}
    {data indices indptr B : TType} {shape : Nat × Nat} {tr : Bool}
    {cd : Dtype} {idt dd Bd : Dtype} :
    (csr_matmat_mhlo pl gs data indices indptr B shape tr (some cd) none
      idt dd Bd).isOk = false := by
  unfold csr_matmat_mhlo
  cases hv : validate_csr_mhlo data indices indptr shape with
  | error e => simp [Except.isOk, Except.toBool]
  | ok v =>
    obtain ⟨dt, it, nnz⟩ := v
    cases hB : B.shape with
    | nil => simp [Except.isOk, Except.toBool]
    | cons a l =>
      cases l with
      | nil => simp [Except.isOk, Except.toBool]
      | cons b l2 =>
        cases l2 with
        | nil => simp [Except.isOk, Except.toBool]
        | cons c l3 => simp [Except.isOk, Except.toBool]

/-- A successful COO mat-vec lowering with defaulted compute type. -/
theorem coo_matvec_mhlo_none_eq {pl : String} {gs : GpuSparse}
    {data row col x : TType} {shape : Nat × Nat} {tr : Bool}
    {ctp : Option EType} {idt dd xd : Dtype}
    (h : (coo_matvec_mhlo pl gs data row col x shape tr none ctp
      idt dd xd).isOk = true) :
    coo_matvec_mhlo pl gs data row col x shape tr none ctp idt dd xd =
      Except.ok
        (⟨pl ++ "sparse_coo_matvec",
          [⟨[if tr then shape.2 else shape.1], data.etype⟩,
            ⟨[(gs.build_coo_matvec_descriptor dd xd dd idt shape.1 shape.2
                (data.shape.headD 0) tr).1], EType.i8⟩],
          [data, row, col, x],
          (gs.build_coo_matvec_descriptor dd xd dd idt shape.1 shape.2
            (data.shape.headD 0) tr).2,
          [[0], [0], [0], [0]],
          [[0], [0]]⟩,
        [⟨[if tr then shape.2 else shape.1], data.etype⟩]) := by
  unfold coo_matvec_mhlo at h ⊢
  cases hv : validate_coo_mhlo data row col shape with
  | error e => rw [hv] at h; simp [Except.isOk, Except.toBool] at h
  | ok v =>
    obtain ⟨dt, it, nnz⟩ := v
    obtain ⟨h1, _, _, _, h5, _⟩ := validate_coo_mhlo_ok hv
    subst h5
    simp [custom_call, h1]

/-- A successful COO mat-vec lowering with caller-specified compute type. -/
theorem coo_matvec_mhlo_some_eq {pl : String} {gs : GpuSparse}
    {data row col x : TType} {shape : Nat × Nat} {tr : Bool}
    {cd : Dtype} {ct : EType} {idt dd xd : Dtype}
    (h : (coo_matvec_mhlo pl gs data row col x shape tr (some cd) (some ct)
      idt dd xd).isOk = true) :
    coo_matvec_mhlo pl gs data row col x shape tr (some cd) (some ct)
        idt dd xd =
      Except.ok
        (⟨pl ++ "sparse_coo_matvec",
          [⟨[if tr then shape.2 else shape.1], ct⟩,
            ⟨[(gs.build_coo_matvec_descriptor dd xd cd idt shape.1 shape.2
                (data.shape.headD 0) tr).1], EType.i8⟩],
          [data, row, col, x],
          (gs.build_coo_matvec_descriptor dd xd cd idt shape.1 shape.2
            (data.shape.headD 0) tr).2,
          [[0], [0], [0], [0]],
          [[0], [0]]⟩,
        [⟨[if tr then shape.2 else shape.1], ct⟩]) := by
  unfold coo_matvec_mhlo at h ⊢
  cases hv : validate_coo_mhlo data row col shape with
  | error e => rw [hv] at h; simp [Except.isOk, Except.toBool] at h
  | ok v =>
    obtain ⟨dt, it, nnz⟩ := v
    obtain ⟨h1, _, _, _, h5, _⟩ := validate_coo_mhlo_ok hv
    subst h5
    simp [custom_call, h1]

/-- A COO mat-vec call with `compute_dtype` given but `compute_type` absent
never succeeds. -/
theorem coo_matvec_mhlo_some_none {pl : String} {gs : GpuSparse}
    {data row col x : TType} {shape : Nat × Nat} {tr : Bool}
    {cd : Dtype} {idt dd xd : Dtype} :
    (coo_matvec_mhlo pl gs data row col x shape tr (some cd) none
      idt dd xd).isOk = false := by
  unfold coo_matvec_mhlo
  cases hv : validate_coo_mhlo data row col shape with
  | error e => simp [Except.isOk, Except.toBool]
  | ok v =>
    obtain ⟨dt, it, nnz⟩ := v
    simp [Except.isOk, Except.toBool]

/-- A successful COO mat-mat lowering with defaulted compute type. -/
theorem coo_matmat_mhlo_none_eq {pl : String} {gs : GpuSparse}
    {data row col B : TType} {shape : Nat × Nat} {tr : Bool}
    {ctp : Option EType} {xd dd idt : Dtype}
    (h : (coo_matmat_mhlo pl gs data row col B shape tr none ctp
      xd dd idt).isOk = true) :
    coo_matmat_mhlo pl gs data row col B shape tr none ctp xd dd idt =
      Except.ok
        (⟨pl ++ "sparse_coo_matmat",
          [⟨[if tr then shape.2 else shape.1, B.shape.getD 1 0], data.etype⟩,
            ⟨[(gs.build_coo_matmat_descriptor dd xd dd idt shape.1 shape.2
                (B.shape.getD 1 0) (data.shape.headD 0) tr).1], EType.i8⟩],
          [data, row, col, B],
          (gs.build_coo_matmat_descriptor dd xd dd idt shape.1 shape.2
            (B.shape.getD 1 0) (data.shape.headD 0) tr).2,
          [[0], [0], [0], [1, 0]],
          [[1, 0], [0]]⟩,
        [⟨[if tr then shape.2 else shape.1, B.shape.getD 1 0], data.etype⟩]) := by
  unfold coo_matmat_mhlo at h ⊢
  cases hv : validate_coo_mhlo data row col shape with
  | error e => rw [hv] at h; simp [Except.isOk, Except.toBool] at h
  | ok v =>
    obtain ⟨dt, it, nnz⟩ := v
    obtain ⟨h1, _, _, _, h5, _⟩ := validate_coo_mhlo_ok hv
    subst h5
    cases hB : B.shape with
    | nil => rw [hv, hB] at h; simp [Except.isOk, Except.toBool] at h
    | cons a l =>
      cases l with
      | nil => rw [hv, hB] at h; simp [Except.isOk, Except.toBool] at h
      | cons b l2 =>
        cases l2 with
        | nil => simp [custom_call, h1]
        | cons c l3 => rw [hv, hB] at h; simp [Except.isOk, Except.toBool] at h

/-- A successful COO mat-mat lowering with caller-specified compute type. -/
theorem coo_matmat_mhlo_some_eq {pl : String} {gs : GpuSparse}
    {data row col B : TType} {shape : Nat × Nat} {tr : Bool}
    {cd : Dtype} {ct : EType} {xd dd idt : Dtype}
    (h : (coo_matmat_mhlo pl gs data row col B shape tr (some cd) (some ct)
      xd dd idt).isOk = true) :
    coo_matmat_mhlo pl gs data row col B shape tr (some cd) (some ct)
        xd dd idt =
      Except.ok
        (⟨pl ++ "sparse_coo_matmat",
          [⟨[if tr then shape.2 else shape.1, B.shape.getD 1 0], ct⟩,
            ⟨[(gs.build_coo_matmat_descriptor dd xd cd idt shape.1 shape.2
                (B.shape.getD 1 0) (data.shape.headD 0) tr).1], EType.i8⟩],
          [data, row, col, B],
          (gs.build_coo_matmat_descriptor dd xd cd idt shape.1 shape.2
            (B.shape.getD 1 0) (data.shape.headD 0) tr).2,
          [[0], [0], [0], [1, 0]],
          [[1, 0], [0]]⟩,
        [⟨[if tr then shape.2 else shape.1, B.shape.getD 1 0], ct⟩]) := by
  unfold coo_matmat_mhlo at h ⊢
  cases hv : validate_coo_mhlo data row col shape with
  | error e => rw [hv] at h; simp [Except.isOk, Except.toBool] at h
  | ok v =>
    obtain ⟨dt, it, nnz⟩ := v
    obtain ⟨h1, _, _, _, h5, _⟩ := validate_coo_mhlo_ok hv
    subst h5
    cases hB : B.shape with
    | nil => rw [hv, hB] at h; simp [Except.isOk, Except.toBool] at h
    | cons a l =>
      cases l with
      | nil => rw [hv, hB] at h; simp [Except.isOk, Except.toBool] at h
      | cons b l2 =>
        cases l2 with
        | nil => simp [custom_call, h1]
        | cons c l3 => rw [hv, hB] at h; simp [Except.isOk, Except.toBool] at h

/-- A COO mat-mat call with `compute_dtype` given but `compute_type` absent
never succeeds. -/
theorem coo_matmat_mhlo_some_none {pl : String} {gs : GpuSparse}
    {data row col B : TType} {shape : Nat × Nat} {tr : Bool}
    {cd : Dtype} {xd dd idt : Dtype} :
    (coo_matmat_mhlo pl gs data row col B shape tr (some cd) none
      xd dd idt).isOk = false := by
  unfold coo_matmat_mhlo
  cases hv : validate_coo_mhlo data row col shape with
  | error e => simp [Except.isOk, Except.toBool]
  | ok v =>
    obtain ⟨dt, it, nnz⟩ := v
    cases hB : B.shape with
    | nil => simp [Except.isOk, Except.toBool]
    | cons a l =>
      cases l with
      | nil => simp [Except.isOk, Except.toBool]
      | cons b l2 =>
        cases l2 with
        | nil => simp [Except.isOk, Except.toBool]
        | cons c l3 => simp [Except.isOk, Except.toBool]

/-- C1 counterexample: requesting the tridiagonal solve at a precision
outside single/double (here half precision) does not fail with
`UnsupportedConfiguration`: the lowering succeeds, constructs a call site,
and silently takes the f64 path. -/
theorem gtsv2_unsupported_precision_counterexample :
    (gtsv2_mhlo "cu" testBackend ⟨[3], EType.f32⟩ ⟨[3], EType.f32⟩
      ⟨[3], EType.f32⟩ ⟨[3, 1], EType.f32⟩ 3 1 3 Dtype.f16).isOk = true
    ∧ (okCall (gtsv2_mhlo "cu" testBackend ⟨[3], EType.f32⟩ ⟨[3], EType.f32⟩
      ⟨[3], EType.f32⟩ ⟨[3, 1], EType.f32⟩ 3 1 3 Dtype.f16)).name =
      "cusparse_gtsv2_f64" := by
  constructor <;> rfl

/-- C1 (amended): the tridiagonal lowering never fails at this layer; for
`t = f32` the result element type is f32 and the emitted name carries the
`gtsv2_f32` suffix, and for every other `t` (including f64) the result
element type is f64 and the name carries the `gtsv2_f64` suffix. -/
theorem gtsv2_precision_determines_result (platform : String) (gs : GpuSparse)
    (dl d du B : TType) (m n ldb : Nat) (t : Dtype) :
    ∃ c outs, gtsv2_mhlo platform gs dl d du B m n ldb t = Except.ok (c, outs)
      ∧ c.name = platform ++ "sparse_gtsv2_" ++
        (if t = Dtype.f32 then "f32" else "f64")
      ∧ outs = [⟨[ldb, n], if t = Dtype.f32 then EType.f32 else EType.f64⟩] :=
  ⟨_, _, gtsv2_mhlo_eq platform gs dl d du B m n ldb t, rfl, rfl⟩

/-- C2 (spec-modelled): invoking any operation through the catalog against a
backend whose capability flag is false fails with `BackendUnavailable`, and
the outcome is independent of both the operation body and the backend
adapter: no descriptor-builder function is consulted. -/
theorem backend_unavailable_guard {α : Type}
    (op op2 : GpuSparse → Except Err α) (gs gs2 : GpuSparse) :
    catalog_invoke false op gs = Except.error Err.BackendUnavailable
    ∧ catalog_invoke false op gs = catalog_invoke false op2 gs2 :=
  ⟨rfl, rfl⟩

/-- C5: for each of the four mat-vec and mat-mat lowerings, the first
dimension of the first result equals `cols` when `transpose` is true and
`rows` otherwise. -/
theorem matvec_matmat_out_size :
    (∀ (pl : String) (gs : GpuSparse) (data indices indptr x : TType)
      (shape : Nat × Nat) (tr : Bool) (cdt : Option Dtype) (ctp : Option EType)
      (dd idt xd : Dtype),
      (csr_matvec_mhlo pl gs data indices indptr x shape tr cdt ctp
        dd idt xd).isOk = true →
      ((okOuts (csr_matvec_mhlo pl gs data indices indptr x shape tr cdt ctp
        dd idt xd)).headD default).shape.headD 0 =
        if tr then shape.2 else shape.1)
    ∧ (∀ (pl : String) (gs : GpuSparse) (data indices indptr B : TType)
      (shape : Nat × Nat) (tr : Bool) (cdt : Option Dtype) (ctp : Option EType)
      (idt dd Bd : Dtype),
      (csr_matmat_mhlo pl gs data indices indptr B shape tr cdt ctp
        idt dd Bd).isOk = true →
      ((okOuts (csr_matmat_mhlo pl gs data indices indptr B shape tr cdt ctp
        idt dd Bd)).headD default).shape.headD 0 =
        if tr then shape.2 else shape.1)
    ∧ (∀ (pl : String) (gs : GpuSparse) (data row col x : TType)
      (shape : Nat × Nat) (tr : Bool) (cdt : Option Dtype) (ctp : Option EType)
      (idt dd xd : Dtype),
      (coo_matvec_mhlo pl gs data row col x shape tr cdt ctp
        idt dd xd).isOk = true →
      ((okOuts (coo_matvec_mhlo pl gs data row col x shape tr cdt ctp
        idt dd xd)).headD default).shape.headD 0 =
        if tr then shape.2 else shape.1)
    ∧ (∀ (pl : String) (gs : GpuSparse) (data row col B : TType)
      (shape : Nat × Nat) (tr : Bool) (cdt : Option Dtype) (ctp : Option EType)
      (xd dd idt : Dtype),
      (coo_matmat_mhlo pl gs data row col B shape tr cdt ctp
        xd dd idt).isOk = true →
      ((okOuts (coo_matmat_mhlo pl gs data row col B shape tr cdt ctp
        xd dd idt)).headD default).shape.headD 0 =
        if tr then shape.2 else shape.1) := by
  refine ⟨fun pl gs data indices indptr x shape tr cdt ctp dd idt xd h => ?_,
    fun pl gs data indices indptr B shape tr cdt ctp idt dd Bd h => ?_,
    fun pl gs data row col x shape tr cdt ctp idt dd xd h => ?_,
    fun pl gs data row col B shape tr cdt ctp xd dd idt h => ?_⟩
  · cases cdt with
    | none => rw [csr_matvec_mhlo_none_eq h]; simp [okOuts]
    | some cd =>
      cases ctp with
      | none => rw [csr_matvec_mhlo_some_none] at h; exact absurd h (by simp)
      | some ct => rw [csr_matvec_mhlo_some_eq h]; simp [okOuts]
  · cases cdt with
    | none => rw [csr_matmat_mhlo_none_eq h]; simp [okOuts]
    | some cd =>
      cases ctp with
      | none => rw [csr_matmat_mhlo_some_none] at h; exact absurd h (by simp)
      | some ct => rw [csr_matmat_mhlo_some_eq h]; simp [okOuts]
  · cases cdt with
    | none => rw [coo_matvec_mhlo_none_eq h]; simp [okOuts]
    | some cd =>
      cases ctp with
      | none => rw [coo_matvec_mhlo_some_none] at h; exact absurd h (by simp)
      | some ct => rw [coo_matvec_mhlo_some_eq h]; simp [okOuts]
  · cases cdt with
    | none => rw [coo_matmat_mhlo_none_eq h]; simp [okOuts]
    | some cd =>
      cases ctp with
      | none => rw [coo_matmat_mhlo_some_none] at h; exact absurd h (by simp)
      | some ct => rw [coo_matmat_mhlo_some_eq h]; simp [okOuts]

/-- Witness for C5: concrete runs of the four product lowerings, with and
without transpose. -/
theorem matvec_matmat_out_size_witness :
    ((okOuts (csr_matvec_mhlo "cu" testBackend ⟨[3], EType.f32⟩
      ⟨[3], EType.i32⟩ ⟨[4], EType.i32⟩ ⟨[3], EType.f32⟩ (3, 2) true none none
      Dtype.f32 Dtype.i32 Dtype.f32)).headD default).shape.headD 0 = 2
    ∧ ((okOuts (csr_matmat_mhlo "cu" testBackend ⟨[3], EType.f32⟩
      ⟨[3], EType.i32⟩ ⟨[4], EType.i32⟩ ⟨[3, 5], EType.f32⟩ (3, 2) false none
      none Dtype.i32 Dtype.f32 Dtype.f32)).headD default).shape.headD 0 = 3
    ∧ ((okOuts (coo_matvec_mhlo "cu" testBackend ⟨[2], EType.f32⟩
      ⟨[2], EType.i32⟩ ⟨[2], EType.i32⟩ ⟨[2], EType.f32⟩ (2, 4) true none none
      Dtype.i32 Dtype.f32 Dtype.f32)).headD default).shape.headD 0 = 4
    ∧ ((okOuts (coo_matmat_mhlo "cu" testBackend ⟨[2], EType.f32⟩
      ⟨[2], EType.i32⟩ ⟨[2], EType.i32⟩ ⟨[2, 6], EType.f32⟩ (2, 4) false none
      none Dtype.f32 Dtype.f32 Dtype.i32)).headD default).shape.headD 0 = 2 :=
  ⟨matvec_matmat_out_size.1 "cu" testBackend ⟨[3], EType.f32⟩ ⟨[3], EType.i32⟩
      ⟨[4], EType.i32⟩ ⟨[3], EType.f32⟩ (3, 2) true none none Dtype.f32
      Dtype.i32 Dtype.f32 rfl,
    matvec_matmat_out_size.2.1 "cu" testBackend ⟨[3], EType.f32⟩
      ⟨[3], EType.i32⟩ ⟨[4], EType.i32⟩ ⟨[3, 5], EType.f32⟩ (3, 2) false none
      none Dtype.i32 Dtype.f32 Dtype.f32 rfl,
    matvec_matmat_out_size.2.2.1 "cu" testBackend ⟨[2], EType.f32⟩
      ⟨[2], EType.i32⟩ ⟨[2], EType.i32⟩ ⟨[2], EType.f32⟩ (2, 4) true none none
      Dtype.i32 Dtype.f32 Dtype.f32 rfl,
    matvec_matmat_out_size.2.2.2 "cu" testBackend ⟨[2], EType.f32⟩
      ⟨[2], EType.i32⟩ ⟨[2], EType.i32⟩ ⟨[2, 6], EType.f32⟩ (2, 4) false none
      none Dtype.f32 Dtype.f32 Dtype.i32 rfl⟩

/-- C6: every emitted call carries the layouts of the spec table: 1-D
operands and 1-D results carry `[0]`; dense 2-D operands and dense 2-D
results carry the row-major layout `[1, 0]`; in particular mat-mat ops
emit operand layouts `[0], [0], [0], [1, 0]` and result layouts
`[1, 0], [0]`. -/
theorem operation_layouts :
    (∀ (pl : String) (gs : GpuSparse) (data indices indptr : TType)
      (shape : Nat × Nat) (dd idt : Dtype),
      (csr_todense_mhlo pl gs data indices indptr shape dd idt).isOk = true →
      (okCall (csr_todense_mhlo pl gs data indices indptr shape dd
        idt)).operand_layouts = [[0], [0], [0]]
      ∧ (okCall (csr_todense_mhlo pl gs data indices indptr shape dd
        idt)).result_layouts = [[1, 0], [0]])
    ∧ (∀ (pl : String) (gs : GpuSparse) (mat : TType) (nnz : Nat)
      (idt dd : Dtype) (it : EType),
      (csr_fromdense_mhlo pl gs mat nnz idt dd it).isOk = true →
      (okCall (csr_fromdense_mhlo pl gs mat nnz idt dd it)).operand_layouts =
        [[1, 0]]
      ∧ (okCall (csr_fromdense_mhlo pl gs mat nnz idt dd it)).result_layouts =
        [[0], [0], [0], [0]])
    ∧ (∀ (pl : String) (gs : GpuSparse) (data indices indptr x : TType)
      (shape : Nat × Nat) (tr : Bool) (cdt : Option Dtype) (ctp : Option EType)
      (dd idt xd : Dtype),
      (csr_matvec_mhlo pl gs data indices indptr x shape tr cdt ctp
        dd idt xd).isOk = true →
      (okCall (csr_matvec_mhlo pl gs data indices indptr x shape tr cdt ctp
        dd idt xd)).operand_layouts = [[0], [0], [0], [0]]
      ∧ (okCall (csr_matvec_mhlo pl gs data indices indptr x shape tr cdt ctp
        dd idt xd)).result_layouts = [[0], [0]])
    ∧ (∀ (pl : String) (gs : GpuSparse) (data indices indptr B : TType)
      (shape : Nat × Nat) (tr : Bool) (cdt : Option Dtype) (ctp : Option EType)
      (idt dd Bd : Dtype),
      (csr_matmat_mhlo pl gs data indices indptr B shape tr cdt ctp
        idt dd Bd).isOk = true →
      (okCall (csr_matmat_mhlo pl gs data indices indptr B shape tr cdt ctp
        idt dd Bd)).operand_layouts = [[0], [0], [0], [1, 0]]
      ∧ (okCall (csr_matmat_mhlo pl gs data indices indptr B shape tr cdt ctp
        idt dd Bd)).result_layouts = [[1, 0], [0]])
    ∧ (∀ (pl : String) (gs : GpuSparse) (data row col : TType)
      (shape : Nat × Nat) (dd idt : Dtype),
      (coo_todense_mhlo pl gs data row col shape dd idt).isOk = true →
      (okCall (coo_todense_mhlo pl gs data row col shape dd
        idt)).operand_layouts = [[0], [0], [0]]
      ∧ (okCall (coo_todense_mhlo pl gs data row col shape dd
        idt)).result_layouts = [[1, 0], [0]])
    ∧ (∀ (pl : String) (gs : GpuSparse) (mat : TType) (nnz : Nat)
      (dd idt : Dtype) (it : EType),
      (coo_fromdense_mhlo pl gs mat nnz dd idt it).isOk = true →
      (okCall (coo_fromdense_mhlo pl gs mat nnz dd idt it)).operand_layouts =
        [[1, 0]]
      ∧ (okCall (coo_fromdense_mhlo pl gs mat nnz dd idt it)).result_layouts =
        [[0], [0], [0], [0]])
    ∧ (∀ (pl : String) (gs : GpuSparse) (data row col x : TType)
      (shape : Nat × Nat) (tr : Bool) (cdt : Option Dtype) (ctp : Option EType)
      (idt dd xd : Dtype),
      (coo_matvec_mhlo pl gs data row col x shape tr cdt ctp
        idt dd xd).isOk = true →
      (okCall (coo_matvec_mhlo pl gs data row col x shape tr cdt ctp
        idt dd xd)).operand_layouts = [[0], [0], [0], [0]]
      ∧ (okCall (coo_matvec_mhlo pl gs data row col x shape tr cdt ctp
        idt dd xd)).result_layouts = [[0], [0]])
    ∧ (∀ (pl : String) (gs : GpuSparse) (data row col B : TType)
      (shape : Nat × Nat) (tr : Bool) (cdt : Option Dtype) (ctp : Option EType)
      (xd dd idt : Dtype),
      (coo_matmat_mhlo pl gs data row col B shape tr cdt ctp
        xd dd idt).isOk = true →
      (okCall (coo_matmat_mhlo pl gs data row col B shape tr cdt ctp
        xd dd idt)).operand_layouts = [[0], [0], [0], [1, 0]]
      ∧ (okCall (coo_matmat_mhlo pl gs data row col B shape tr cdt ctp
        xd dd idt)).result_layouts = [[1, 0], [0]])
    ∧ (∀ (pl : String) (gs : GpuSparse) (dl d du B : TType) (m n ldb : Nat)
      (t : Dtype),
      (okCall (gtsv2_mhlo pl gs dl d du B m n ldb t)).operand_layouts =
        [[0], [0], [0], [1, 0]]
      ∧ (okCall (gtsv2_mhlo pl gs dl d du B m n ldb t)).result_layouts =
        [[1, 0], [0]]) := by
  refine ⟨fun pl gs data indices indptr shape dd idt h => ?_,
    fun pl gs mat nnz idt dd it h => ?_,
    fun pl gs data indices indptr x shape tr cdt ctp dd idt xd h => ?_,
    fun pl gs data indices indptr B shape tr cdt ctp idt dd Bd h => ?_,
    fun pl gs data row col shape dd idt h => ?_,
    fun pl gs mat nnz dd idt it h => ?_,
    fun pl gs data row col x shape tr cdt ctp idt dd xd h => ?_,
    fun pl gs data row col B shape tr cdt ctp xd dd idt h => ?_,
    fun pl gs dl d du B m n ldb t => ?_⟩
  · rw [csr_todense_mhlo_ok_eq h]; exact ⟨rfl, rfl⟩
  · rw [csr_fromdense_mhlo_ok_eq h]; exact ⟨rfl, rfl⟩
  · cases cdt with
    | none => rw [csr_matvec_mhlo_none_eq h]; exact ⟨rfl, rfl⟩
    | some cd =>
      cases ctp with
      | none => rw [csr_matvec_mhlo_some_none] at h; exact absurd h (by simp)
      | some ct => rw [csr_matvec_mhlo_some_eq h]; exact ⟨rfl, rfl⟩
  · cases cdt with
    | none => rw [csr_matmat_mhlo_none_eq h]; exact ⟨rfl, rfl⟩
    | some cd =>
      cases ctp with
      | none => rw [csr_matmat_mhlo_some_none] at h; exact absurd h (by simp)
      | some ct => rw [csr_matmat_mhlo_some_eq h]; exact ⟨rfl, rfl⟩
  · rw [coo_todense_mhlo_ok_eq h]; exact ⟨rfl, rfl⟩
  · rw [coo_fromdense_mhlo_ok_eq h]; exact ⟨rfl, rfl⟩
  · cases cdt with
    | none => rw [coo_matvec_mhlo_none_eq h]; exact ⟨rfl, rfl⟩
    | some cd =>
      cases ctp with
      | none => rw [coo_matvec_mhlo_some_none] at h; exact absurd h (by simp)
      | some ct => rw [coo_matvec_mhlo_some_eq h]; exact ⟨rfl, rfl⟩
  · cases cdt with
    | none => rw [coo_matmat_mhlo_none_eq h]; exact ⟨rfl, rfl⟩
    | some cd =>
      cases ctp with
      | none => rw [coo_matmat_mhlo_some_none] at h; exact absurd h (by simp)
      | some ct => rw [coo_matmat_mhlo_some_eq h]; exact ⟨rfl, rfl⟩
  · rw [gtsv2_mhlo_eq pl gs dl d du B m n ldb t]; exact ⟨rfl, rfl⟩

/-- Witness for C6: the layout pairs of all nine lowerings at concrete
inputs. -/
theorem operation_layouts_witness :
    ((okCall (csr_todense_mhlo "cu" testBackend ⟨[3], EType.f32⟩
      ⟨[3], EType.i32⟩ ⟨[4], EType.i32⟩ (3, 3) Dtype.f32
      Dtype.i32)).operand_layouts = [[0], [0], [0]]
    ∧ (okCall (csr_todense_mhlo "cu" testBackend ⟨[3], EType.f32⟩
      ⟨[3], EType.i32⟩ ⟨[4], EType.i32⟩ (3, 3) Dtype.f32
      Dtype.i32)).result_layouts = [[1, 0], [0]])
    ∧ ((okCall (csr_fromdense_mhlo "cu" testBackend ⟨[3, 3], EType.f32⟩ 3
      Dtype.i32 Dtype.f32 EType.i32)).operand_layouts = [[1, 0]]
    ∧ (okCall (csr_fromdense_mhlo "cu" testBackend ⟨[3, 3], EType.f32⟩ 3
      Dtype.i32 Dtype.f32 EType.i32)).result_layouts = [[0], [0], [0], [0]])
    ∧ ((okCall (csr_matvec_mhlo "cu" testBackend ⟨[3], EType.f32⟩
      ⟨[3], EType.i32⟩ ⟨[4], EType.i32⟩ ⟨[3], EType.f32⟩ (3, 2) true none none
      Dtype.f32 Dtype.i32 Dtype.f32)).operand_layouts = [[0], [0], [0], [0]]
    ∧ (okCall (csr_matvec_mhlo "cu" testBackend ⟨[3], EType.f32⟩
      ⟨[3], EType.i32⟩ ⟨[4], EType.i32⟩ ⟨[3], EType.f32⟩ (3, 2) true none none
      Dtype.f32 Dtype.i32 Dtype.f32)).result_layouts = [[0], [0]])
    ∧ ((okCall (csr_matmat_mhlo "cu" testBackend ⟨[3], EType.f32⟩
      ⟨[3], EType.i32⟩ ⟨[4], EType.i32⟩ ⟨[3, 5], EType.f32⟩ (3, 2) false none
      none Dtype.i32 Dtype.f32 Dtype.f32)).operand_layouts =
      [[0], [0], [0], [1, 0]]
    ∧ (okCall (csr_matmat_mhlo "cu" testBackend ⟨[3], EType.f32⟩
      ⟨[3], EType.i32⟩ ⟨[4], EType.i32⟩ ⟨[3, 5], EType.f32⟩ (3, 2) false none
      none Dtype.i32 Dtype.f32 Dtype.f32)).result_layouts = [[1, 0], [0]])
    ∧ ((okCall (coo_todense_mhlo "cu" testBackend ⟨[2], EType.f32⟩
      ⟨[2], EType.i32⟩ ⟨[2], EType.i32⟩ (2, 2) Dtype.f32
      Dtype.i32)).operand_layouts = [[0], [0], [0]]
    ∧ (okCall (coo_todense_mhlo "cu" testBackend ⟨[2], EType.f32⟩
      ⟨[2], EType.i32⟩ ⟨[2], EType.i32⟩ (2, 2) Dtype.f32
      Dtype.i32)).result_layouts = [[1, 0], [0]])
    ∧ ((okCall (coo_fromdense_mhlo "cu" testBackend ⟨[2, 2], EType.f32⟩ 2
      Dtype.f32 Dtype.i32 EType.i32)).operand_layouts = [[1, 0]]
    ∧ (okCall (coo_fromdense_mhlo "cu" testBackend ⟨[2, 2], EType.f32⟩ 2
      Dtype.f32 Dtype.i32 EType.i32)).result_layouts = [[0], [0], [0], [0]])
    ∧ ((okCall (coo_matvec_mhlo "cu" testBackend ⟨[2], EType.f32⟩
      ⟨[2], EType.i32⟩ ⟨[2], EType.i32⟩ ⟨[2], EType.f32⟩ (2, 4) true none none
      Dtype.i32 Dtype.f32 Dtype.f32)).operand_layouts = [[0], [0], [0], [0]]
    ∧ (okCall (coo_matvec_mhlo "cu" testBackend ⟨[2], EType.f32⟩
      ⟨[2], EType.i32⟩ ⟨[2], EType.i32⟩ ⟨[2], EType.f32⟩ (2, 4) true none none
      Dtype.i32 Dtype.f32 Dtype.f32)).result_layouts = [[0], [0]])
    ∧ ((okCall (coo_matmat_mhlo "cu" testBackend ⟨[2], EType.f32⟩
      ⟨[2], EType.i32⟩ ⟨[2], EType.i32⟩ ⟨[2, 6], EType.f32⟩ (2, 4) false none
      none Dtype.f32 Dtype.f32 Dtype.i32)).operand_layouts =
      [[0], [0], [0], [1, 0]]
    ∧ (okCall (coo_matmat_mhlo "cu" testBackend ⟨[2], EType.f32⟩
      ⟨[2], EType.i32⟩ ⟨[2], EType.i32⟩ ⟨[2, 6], EType.f32⟩ (2, 4) false none
      none Dtype.f32 Dtype.f32 Dtype.i32)).result_layouts = [[1, 0], [0]])
    ∧ ((okCall (gtsv2_mhlo "cu" testBackend ⟨[3], EType.f32⟩ ⟨[3], EType.f32⟩
      ⟨[3], EType.f32⟩ ⟨[3, 1], EType.f32⟩ 3 1 3
      Dtype.f32)).operand_layouts = [[0], [0], [0], [1, 0]]
    ∧ (okCall (gtsv2_mhlo "cu" testBackend ⟨[3], EType.f32⟩ ⟨[3], EType.f32⟩
      ⟨[3], EType.f32⟩ ⟨[3, 1], EType.f32⟩ 3 1 3
      Dtype.f32)).result_layouts = [[1, 0], [0]]) :=
  ⟨operation_layouts.1 "cu" testBackend ⟨[3], EType.f32⟩ ⟨[3], EType.i32⟩
      ⟨[4], EType.i32⟩ (3, 3) Dtype.f32 Dtype.i32 rfl,
    operation_layouts.2.1 "cu" testBackend ⟨[3, 3], EType.f32⟩ 3 Dtype.i32
      Dtype.f32 EType.i32 rfl,
    operation_layouts.2.2.1 "cu" testBackend ⟨[3], EType.f32⟩ ⟨[3], EType.i32⟩
      ⟨[4], EType.i32⟩ ⟨[3], EType.f32⟩ (3, 2) true none none Dtype.f32
      Dtype.i32 Dtype.f32 rfl,
    operation_layouts.2.2.2.1 "cu" testBackend ⟨[3], EType.f32⟩
      ⟨[3], EType.i32⟩ ⟨[4], EType.i32⟩ ⟨[3, 5], EType.f32⟩ (3, 2) false none
      none Dtype.i32 Dtype.f32 Dtype.f32 rfl,
    operation_layouts.2.2.2.2.1 "cu" testBackend ⟨[2], EType.f32⟩
      ⟨[2], EType.i32⟩ ⟨[2], EType.i32⟩ (2, 2) Dtype.f32 Dtype.i32 rfl,
    operation_layouts.2.2.2.2.2.1 "cu" testBackend ⟨[2, 2], EType.f32⟩ 2
      Dtype.f32 Dtype.i32 EType.i32 rfl,
    operation_layouts.2.2.2.2.2.2.1 "cu" testBackend ⟨[2], EType.f32⟩
      ⟨[2], EType.i32⟩ ⟨[2], EType.i32⟩ ⟨[2], EType.f32⟩ (2, 4) true none none
      Dtype.i32 Dtype.f32 Dtype.f32 rfl,
    operation_layouts.2.2.2.2.2.2.2.1 "cu" testBackend ⟨[2], EType.f32⟩
      ⟨[2], EType.i32⟩ ⟨[2], EType.i32⟩ ⟨[2, 6], EType.f32⟩ (2, 4) false none
      none Dtype.f32 Dtype.f32 Dtype.i32 rfl,
    operation_layouts.2.2.2.2.2.2.2.2 "cu" testBackend ⟨[3], EType.f32⟩
      ⟨[3], EType.f32⟩ ⟨[3], EType.f32⟩ ⟨[3, 1], EType.f32⟩ 3 1 3 Dtype.f32⟩

/-- C7: for every lowering, the declared result types are the semantic
outputs followed by exactly one trailing signless-8-bit byte buffer whose
length is the `bufferSize` reported by the backend query, and the function
returns exactly the result handles minus that trailing scratch buffer. -/
theorem scratch_buffer_contract :
    (∀ (pl : String) (gs : GpuSparse) (data indices indptr : TType)
      (shape : Nat × Nat) (dd idt : Dtype),
      (csr_todense_mhlo pl gs data indices indptr shape dd idt).isOk = true →
      okOuts (csr_todense_mhlo pl gs data indices indptr shape dd idt) =
        (custom_call (okCall (csr_todense_mhlo pl gs data indices indptr shape
          dd idt))).dropLast
      ∧ (okCall (csr_todense_mhlo pl gs data indices indptr shape dd
          idt)).result_types.getLast? =
        some ⟨[(gs.build_csr_todense_descriptor dd idt shape.1 shape.2
          (data.shape.headD 0)).1], EType.i8⟩)
    ∧ (∀ (pl : String) (gs : GpuSparse) (mat : TType) (nnz : Nat)
      (idt dd : Dtype) (it : EType),
      (csr_fromdense_mhlo pl gs mat nnz idt dd it).isOk = true →
      okOuts (csr_fromdense_mhlo pl gs mat nnz idt dd it) =
        (custom_call (okCall (csr_fromdense_mhlo pl gs mat nnz idt dd
          it))).dropLast
      ∧ (okCall (csr_fromdense_mhlo pl gs mat nnz idt dd
          it)).result_types.getLast? =
        some ⟨[(gs.build_csr_fromdense_descriptor dd idt (mat.shape.headD 0)
          (mat.shape.getD 1 0) nnz).1], EType.i8⟩)
    ∧ (∀ (pl : String) (gs : GpuSparse) (data indices indptr x : TType)
      (shape : Nat × Nat) (tr : Bool) (cdt : Option Dtype) (ctp : Option EType)
      (dd idt xd : Dtype),
      (csr_matvec_mhlo pl gs data indices indptr x shape tr cdt ctp
        dd idt xd).isOk = true →
      okOuts (csr_matvec_mhlo pl gs data indices indptr x shape tr cdt ctp
        dd idt xd) =
        (custom_call (okCall (csr_matvec_mhlo pl gs data indices indptr x
          shape tr cdt ctp dd idt xd))).dropLast
      ∧ (okCall (csr_matvec_mhlo pl gs data indices indptr x shape tr cdt ctp
          dd idt xd)).result_types.getLast? =
        some ⟨[(gs.build_csr_matvec_descriptor dd xd (cdt.getD dd) idt shape.1
          shape.2 (data.shape.headD 0) tr).1], EType.i8⟩)
    ∧ (∀ (pl : String) (gs : GpuSparse) (data indices indptr B : TType)
      (shape : Nat × Nat) (tr : Bool) (cdt : Option Dtype) (ctp : Option EType)
      (idt dd Bd : Dtype),
      (csr_matmat_mhlo pl gs data indices indptr B shape tr cdt ctp
        idt dd Bd).isOk = true →
      okOuts (csr_matmat_mhlo pl gs data indices indptr B shape tr cdt ctp
        idt dd Bd) =
        (custom_call (okCall (csr_matmat_mhlo pl gs data indices indptr B
          shape tr cdt ctp idt dd Bd))).dropLast
      ∧ (okCall (csr_matmat_mhlo pl gs data indices indptr B shape tr cdt ctp
          idt dd Bd)).result_types.getLast? =
        some ⟨[(gs.build_csr_matmat_descriptor dd Bd (cdt.getD dd) idt shape.1
          shape.2 (B.shape.getD 1 0) (data.shape.headD 0) tr).1], EType.i8⟩)
    ∧ (∀ (pl : String) (gs : GpuSparse) (data row col : TType)
      (shape : Nat × Nat) (dd idt : Dtype),
      (coo_todense_mhlo pl gs data row col shape dd idt).isOk = true →
      okOuts (coo_todense_mhlo pl gs data row col shape dd idt) =
        (custom_call (okCall (coo_todense_mhlo pl gs data row col shape dd
          idt))).dropLast
      ∧ (okCall (coo_todense_mhlo pl gs data row col shape dd
          idt)).result_types.getLast? =
        some ⟨[(gs.build_coo_todense_descriptor dd idt shape.1 shape.2
          (data.shape.headD 0)).1], EType.i8⟩)
    ∧ (∀ (pl : String) (gs : GpuSparse) (mat : TType) (nnz : Nat)
      (dd idt : Dtype) (it : EType),
      (coo_fromdense_mhlo pl gs mat nnz dd idt it).isOk = true →
      okOuts (coo_fromdense_mhlo pl gs mat nnz dd idt it) =
        (custom_call (okCall (coo_fromdense_mhlo pl gs mat nnz dd idt
          it))).dropLast
      ∧ (okCall (coo_fromdense_mhlo pl gs mat nnz dd idt
          it)).result_types.getLast? =
        some ⟨[(gs.build_coo_fromdense_descriptor dd idt (mat.shape.headD 0)
          (mat.shape.getD 1 0) nnz).1], EType.i8⟩)
    ∧ (∀ (pl : String) (gs : GpuSparse) (data row col x : TType)
      (shape : Nat × Nat) (tr : Bool) (cdt : Option Dtype) (ctp : Option EType)
      (idt dd xd : Dtype),
      (coo_matvec_mhlo pl gs data row col x shape tr cdt ctp
        idt dd xd).isOk = true →
      okOuts (coo_matvec_mhlo pl gs data row col x shape tr cdt ctp
        idt dd xd) =
        (custom_call (okCall (coo_matvec_mhlo pl gs data row col x shape tr
          cdt ctp idt dd xd))).dropLast
      ∧ (okCall (coo_matvec_mhlo pl gs data row col x shape tr cdt ctp
          idt dd xd)).result_types.getLast? =
        some ⟨[(gs.build_coo_matvec_descriptor dd xd (cdt.getD dd) idt shape.1
          shape.2 (data.shape.headD 0) tr).1], EType.i8⟩)
    ∧ (∀ (pl : String) (gs : GpuSparse) (data row col B : TType)
      (shape : Nat × Nat) (tr : Bool) (cdt : Option Dtype) (ctp : Option EType)
      (xd dd idt : Dtype),
      (coo_matmat_mhlo pl gs data row col B shape tr cdt ctp
        xd dd idt).isOk = true →
      okOuts (coo_matmat_mhlo pl gs data row col B shape tr cdt ctp
        xd dd idt) =
        (custom_call (okCall (coo_matmat_mhlo pl gs data row col B shape tr
          cdt ctp xd dd idt))).dropLast
      ∧ (okCall (coo_matmat_mhlo pl gs data row col B shape tr cdt ctp
          xd dd idt)).result_types.getLast? =
        some ⟨[(gs.build_coo_matmat_descriptor dd xd (cdt.getD dd) idt shape.1
          shape.2 (B.shape.getD 1 0) (data.shape.headD 0) tr).1], EType.i8⟩)
    ∧ (∀ (pl : String) (gs : GpuSparse) (dl d du B : TType) (m n ldb : Nat)
      (t : Dtype),
      okOuts (gtsv2_mhlo pl gs dl d du B m n ldb t) =
        (custom_call (okCall (gtsv2_mhlo pl gs dl d du B m n ldb t))).dropLast
      ∧ (okCall (gtsv2_mhlo pl gs dl d du B m n ldb
          t)).result_types.getLast? =
        some ⟨[if t = Dtype.f32 then gs.gtsv2_f32_buffer_size m n ldb
          else gs.gtsv2_f64_buffer_size m n ldb], EType.i8⟩) := by
  refine ⟨fun pl gs data indices indptr shape dd idt h => ?_,
    fun pl gs mat nnz idt dd it h => ?_,
    fun pl gs data indices indptr x shape tr cdt ctp dd idt xd h => ?_,
    fun pl gs data indices indptr B shape tr cdt ctp idt dd Bd h => ?_,
    fun pl gs data row col shape dd idt h => ?_,
    fun pl gs mat nnz dd idt it h => ?_,
    fun pl gs data row col x shape tr cdt ctp idt dd xd h => ?_,
    fun pl gs data row col B shape tr cdt ctp xd dd idt h => ?_,
    fun pl gs dl d du B m n ldb t => ?_⟩
  · rw [csr_todense_mhlo_ok_eq h]; exact ⟨rfl, rfl⟩
  · rw [csr_fromdense_mhlo_ok_eq h]; exact ⟨rfl, rfl⟩
  · cases cdt with
    | none => rw [csr_matvec_mhlo_none_eq h]; exact ⟨rfl, rfl⟩
    | some cd =>
      cases ctp with
      | none => rw [csr_matvec_mhlo_some_none] at h; exact absurd h (by simp)
      | some ct => rw [csr_matvec_mhlo_some_eq h]; exact ⟨rfl, rfl⟩
  · cases cdt with
    | none => rw [csr_matmat_mhlo_none_eq h]; exact ⟨rfl, rfl⟩
    | some cd =>
      cases ctp with
      | none => rw [csr_matmat_mhlo_some_none] at h; exact absurd h (by simp)
      | some ct => rw [csr_matmat_mhlo_some_eq h]; exact ⟨rfl, rfl⟩
  · rw [coo_todense_mhlo_ok_eq h]; exact ⟨rfl, rfl⟩
  · rw [coo_fromdense_mhlo_ok_eq h]; exact ⟨rfl, rfl⟩
  · cases cdt with
    | none => rw [coo_matvec_mhlo_none_eq h]; exact ⟨rfl, rfl⟩
    | some cd =>
      cases ctp with
      | none => rw [coo_matvec_mhlo_some_none] at h; exact absurd h (by simp)
      | some ct => rw [coo_matvec_mhlo_some_eq h]; exact ⟨rfl, rfl⟩
  · cases cdt with
    | none => rw [coo_matmat_mhlo_none_eq h]; exact ⟨rfl, rfl⟩
    | some cd =>
      cases ctp with
      | none => rw [coo_matmat_mhlo_some_none] at h; exact absurd h (by simp)
      | some ct => rw [coo_matmat_mhlo_some_eq h]; exact ⟨rfl, rfl⟩
  · rw [gtsv2_mhlo_eq pl gs dl d du B m n ldb t]
    by_cases ht : t = Dtype.f32
    · simp [ht, okOuts, okCall, custom_call]
    · simp [ht, okOuts, okCall, custom_call]

/-- Witness for C7: the scratch-buffer contract at concrete inputs, with the
buffer sizes answered by the concrete test backend. -/
theorem scratch_buffer_contract_witness :
    (okOuts (csr_todense_mhlo "cu" testBackend ⟨[3], EType.f32⟩
      ⟨[3], EType.i32⟩ ⟨[4], EType.i32⟩ (3, 3) Dtype.f32 Dtype.i32) =
      (custom_call (okCall (csr_todense_mhlo "cu" testBackend ⟨[3], EType.f32⟩
        ⟨[3], EType.i32⟩ ⟨[4], EType.i32⟩ (3, 3) Dtype.f32
        Dtype.i32))).dropLast
    ∧ (okCall (csr_todense_mhlo "cu" testBackend ⟨[3], EType.f32⟩
        ⟨[3], EType.i32⟩ ⟨[4], EType.i32⟩ (3, 3) Dtype.f32
        Dtype.i32)).result_types.getLast? = some ⟨[11], EType.i8⟩)
    ∧ (okOuts (csr_fromdense_mhlo "cu" testBackend ⟨[3, 3], EType.f32⟩ 3
      Dtype.i32 Dtype.f32 EType.i32) =
      (custom_call (okCall (csr_fromdense_mhlo "cu" testBackend
        ⟨[3, 3], EType.f32⟩ 3 Dtype.i32 Dtype.f32 EType.i32))).dropLast
    ∧ (okCall (csr_fromdense_mhlo "cu" testBackend ⟨[3, 3], EType.f32⟩ 3
        Dtype.i32 Dtype.f32 EType.i32)).result_types.getLast? =
        some ⟨[12], EType.i8⟩)
    ∧ (okOuts (csr_matvec_mhlo "cu" testBackend ⟨[3], EType.f32⟩
      ⟨[3], EType.i32⟩ ⟨[4], EType.i32⟩ ⟨[3], EType.f32⟩ (3, 2) true none none
      Dtype.f32 Dtype.i32 Dtype.f32) =
      (custom_call (okCall (csr_matvec_mhlo "cu" testBackend ⟨[3], EType.f32⟩
        ⟨[3], EType.i32⟩ ⟨[4], EType.i32⟩ ⟨[3], EType.f32⟩ (3, 2) true none
        none Dtype.f32 Dtype.i32 Dtype.f32))).dropLast
    ∧ (okCall (csr_matvec_mhlo "cu" testBackend ⟨[3], EType.f32⟩
        ⟨[3], EType.i32⟩ ⟨[4], EType.i32⟩ ⟨[3], EType.f32⟩ (3, 2) true none
        none Dtype.f32 Dtype.i32 Dtype.f32)).result_types.getLast? =
        some ⟨[13], EType.i8⟩)
    ∧ (okOuts (csr_matmat_mhlo "cu" testBackend ⟨[3], EType.f32⟩
      ⟨[3], EType.i32⟩ ⟨[4], EType.i32⟩ ⟨[3, 5], EType.f32⟩ (3, 2) false none
      none Dtype.i32 Dtype.f32 Dtype.f32) =
      (custom_call (okCall (csr_matmat_mhlo "cu" testBackend ⟨[3], EType.f32⟩
        ⟨[3], EType.i32⟩ ⟨[4], EType.i32⟩ ⟨[3, 5], EType.f32⟩ (3, 2) false
        none none Dtype.i32 Dtype.f32 Dtype.f32))).dropLast
    ∧ (okCall (csr_matmat_mhlo "cu" testBackend ⟨[3], EType.f32⟩
        ⟨[3], EType.i32⟩ ⟨[4], EType.i32⟩ ⟨[3, 5], EType.f32⟩ (3, 2) false
        none none Dtype.i32 Dtype.f32 Dtype.f32)).result_types.getLast? =
        some ⟨[14], EType.i8⟩)
    ∧ (okOuts (coo_todense_mhlo "cu" testBackend ⟨[2], EType.f32⟩
      ⟨[2], EType.i32⟩ ⟨[2], EType.i32⟩ (2, 2) Dtype.f32 Dtype.i32) =
      (custom_call (okCall (coo_todense_mhlo "cu" testBackend ⟨[2], EType.f32⟩
        ⟨[2], EType.i32⟩ ⟨[2], EType.i32⟩ (2, 2) Dtype.f32
        Dtype.i32))).dropLast
    ∧ (okCall (coo_todense_mhlo "cu" testBackend ⟨[2], EType.f32⟩
        ⟨[2], EType.i32⟩ ⟨[2], EType.i32⟩ (2, 2) Dtype.f32
        Dtype.i32)).result_types.getLast? = some ⟨[15], EType.i8⟩)
    ∧ (okOuts (coo_fromdense_mhlo "cu" testBackend ⟨[2, 2], EType.f32⟩ 2
      Dtype.f32 Dtype.i32 EType.i32) =
      (custom_call (okCall (coo_fromdense_mhlo "cu" testBackend
        ⟨[2, 2], EType.f32⟩ 2 Dtype.f32 Dtype.i32 EType.i32))).dropLast
    ∧ (okCall (coo_fromdense_mhlo "cu" testBackend ⟨[2, 2], EType.f32⟩ 2
        Dtype.f32 Dtype.i32 EType.i32)).result_types.getLast? =
        some ⟨[16], EType.i8⟩)
    ∧ (okOuts (coo_matvec_mhlo "cu" testBackend ⟨[2], EType.f32⟩
      ⟨[2], EType.i32⟩ ⟨[2], EType.i32⟩ ⟨[2], EType.f32⟩ (2, 4) true none none
      Dtype.i32 Dtype.f32 Dtype.f32) =
      (custom_call (okCall (coo_matvec_mhlo "cu" testBackend ⟨[2], EType.f32⟩
        ⟨[2], EType.i32⟩ ⟨[2], EType.i32⟩ ⟨[2], EType.f32⟩ (2, 4) true none
        none Dtype.i32 Dtype.f32 Dtype.f32))).dropLast
    ∧ (okCall (coo_matvec_mhlo "cu" testBackend ⟨[2], EType.f32⟩
        ⟨[2], EType.i32⟩ ⟨[2], EType.i32⟩ ⟨[2], EType.f32⟩ (2, 4) true none
        none Dtype.i32 Dtype.f32 Dtype.f32)).result_types.getLast? =
        some ⟨[17], EType.i8⟩)
    ∧ (okOuts (coo_matmat_mhlo "cu" testBackend ⟨[2], EType.f32⟩
      ⟨[2], EType.i32⟩ ⟨[2], EType.i32⟩ ⟨[2, 6], EType.f32⟩ (2, 4) false none
      none Dtype.f32 Dtype.f32 Dtype.i32) =
      (custom_call (okCall (coo_matmat_mhlo "cu" testBackend ⟨[2], EType.f32⟩
        ⟨[2], EType.i32⟩ ⟨[2], EType.i32⟩ ⟨[2, 6], EType.f32⟩ (2, 4) false
        none none Dtype.f32 Dtype.f32 Dtype.i32))).dropLast
    ∧ (okCall (coo_matmat_mhlo "cu" testBackend ⟨[2], EType.f32⟩
        ⟨[2], EType.i32⟩ ⟨[2], EType.i32⟩ ⟨[2, 6], EType.f32⟩ (2, 4) false
        none none Dtype.f32 Dtype.f32 Dtype.i32)).result_types.getLast? =
        some ⟨[18], EType.i8⟩)
    ∧ (okOuts (gtsv2_mhlo "cu" testBackend ⟨[3], EType.f32⟩ ⟨[3], EType.f32⟩
      ⟨[3], EType.f32⟩ ⟨[3, 1], EType.f32⟩ 3 1 3 Dtype.f32) =
      (custom_call (okCall (gtsv2_mhlo "cu" testBackend ⟨[3], EType.f32⟩
        ⟨[3], EType.f32⟩ ⟨[3], EType.f32⟩ ⟨[3, 1], EType.f32⟩ 3 1 3
        Dtype.f32))).dropLast
    ∧ (okCall (gtsv2_mhlo "cu" testBackend ⟨[3], EType.f32⟩ ⟨[3], EType.f32⟩
        ⟨[3], EType.f32⟩ ⟨[3, 1], EType.f32⟩ 3 1 3
        Dtype.f32)).result_types.getLast? = some ⟨[21], EType.i8⟩) :=
  ⟨scratch_buffer_contract.1 "cu" testBackend ⟨[3], EType.f32⟩
      ⟨[3], EType.i32⟩ ⟨[4], EType.i32⟩ (3, 3) Dtype.f32 Dtype.i32 rfl,
    scratch_buffer_contract.2.1 "cu" testBackend ⟨[3, 3], EType.f32⟩ 3
      Dtype.i32 Dtype.f32 EType.i32 rfl,
    scratch_buffer_contract.2.2.1 "cu" testBackend ⟨[3], EType.f32⟩
      ⟨[3], EType.i32⟩ ⟨[4], EType.i32⟩ ⟨[3], EType.f32⟩ (3, 2) true none none
      Dtype.f32 Dtype.i32 Dtype.f32 rfl,
    scratch_buffer_contract.2.2.2.1 "cu" testBackend ⟨[3], EType.f32⟩
      ⟨[3], EType.i32⟩ ⟨[4], EType.i32⟩ ⟨[3, 5], EType.f32⟩ (3, 2) false none
      none Dtype.i32 Dtype.f32 Dtype.f32 rfl,
    scratch_buffer_contract.2.2.2.2.1 "cu" testBackend ⟨[2], EType.f32⟩
      ⟨[2], EType.i32⟩ ⟨[2], EType.i32⟩ (2, 2) Dtype.f32 Dtype.i32 rfl,
    scratch_buffer_contract.2.2.2.2.2.1 "cu" testBackend ⟨[2, 2], EType.f32⟩
      2 Dtype.f32 Dtype.i32 EType.i32 rfl,
    scratch_buffer_contract.2.2.2.2.2.2.1 "cu" testBackend ⟨[2], EType.f32⟩
      ⟨[2], EType.i32⟩ ⟨[2], EType.i32⟩ ⟨[2], EType.f32⟩ (2, 4) true none none
      Dtype.i32 Dtype.f32 Dtype.f32 rfl,
    scratch_buffer_contract.2.2.2.2.2.2.2.1 "cu" testBackend ⟨[2], EType.f32⟩
      ⟨[2], EType.i32⟩ ⟨[2], EType.i32⟩ ⟨[2, 6], EType.f32⟩ (2, 4) false none
      none Dtype.f32 Dtype.f32 Dtype.i32 rfl,
    scratch_buffer_contract.2.2.2.2.2.2.2.2 "cu" testBackend ⟨[3], EType.f32⟩
      ⟨[3], EType.f32⟩ ⟨[3], EType.f32⟩ ⟨[3, 1], EType.f32⟩ 3 1 3 Dtype.f32⟩

/-- C8: for every mat-vec and mat-mat lowering, when `compute_dtype` is
absent the descriptor is built with compute dtype equal to `data_dtype` and
the output element type equals `data`'s element type; when the caller
specifies a compute type, the output element type equals it. -/
theorem compute_dtype_defaulting :
    (∀ (pl : String) (gs : GpuSparse) (data indices indptr x : TType)
      (shape : Nat × Nat) (tr : Bool) (ctp : Option EType) (dd idt xd : Dtype),
      (csr_matvec_mhlo pl gs data indices indptr x shape tr none ctp
        dd idt xd).isOk = true →
      ((okOuts (csr_matvec_mhlo pl gs data indices indptr x shape tr none ctp
        dd idt xd)).headD default).etype = data.etype
      ∧ (okCall (csr_matvec_mhlo pl gs data indices indptr x shape tr none ctp
        dd idt xd)).backend_config =
        (gs.build_csr_matvec_descriptor dd xd dd idt shape.1 shape.2
          (data.shape.headD 0) tr).2)
    ∧ (∀ (pl : String) (gs : GpuSparse) (data indices indptr x : TType)
      (shape : Nat × Nat) (tr : Bool) (cd : Dtype) (ct : EType)
      (dd idt xd : Dtype),
      (csr_matvec_mhlo pl gs data indices indptr x shape tr (some cd)
        (some ct) dd idt xd).isOk = true →
      ((okOuts (csr_matvec_mhlo pl gs data indices indptr x shape tr (some cd)
        (some ct) dd idt xd)).headD default).etype = ct)
    ∧ (∀ (pl : String) (gs : GpuSparse) (data indices indptr B : TType)
      (shape : Nat × Nat) (tr : Bool) (ctp : Option EType) (idt dd Bd : Dtype),
      (csr_matmat_mhlo pl gs data indices indptr B shape tr none ctp
        idt dd Bd).isOk = true →
      ((okOuts (csr_matmat_mhlo pl gs data indices indptr B shape tr none ctp
        idt dd Bd)).headD default).etype = data.etype
      ∧ (okCall (csr_matmat_mhlo pl gs data indices indptr B shape tr none ctp
        idt dd Bd)).backend_config =
        (gs.build_csr_matmat_descriptor dd Bd dd idt shape.1 shape.2
          (B.shape.getD 1 0) (data.shape.headD 0) tr).2)
    ∧ (∀ (pl : String) (gs : GpuSparse) (data indices indptr B : TType)
      (shape : Nat × Nat) (tr : Bool) (cd : Dtype) (ct : EType)
      (idt dd Bd : Dtype),
      (csr_matmat_mhlo pl gs data indices indptr B shape tr (some cd)
        (some ct) idt dd Bd).isOk = true →
      ((okOuts (csr_matmat_mhlo pl gs data indices indptr B shape tr (some cd)
        (some ct) idt dd Bd)).headD default).etype = ct)
    ∧ (∀ (pl : String) (gs : GpuSparse) (data row col x : TType)
      (shape : Nat × Nat) (tr : Bool) (ctp : Option EType) (idt dd xd : Dtype),
      (coo_matvec_mhlo pl gs data row col x shape tr none ctp
        idt dd xd).isOk = true →
      ((okOuts (coo_matvec_mhlo pl gs data row col x shape tr none ctp
        idt dd xd)).headD default).etype = data.etype
      ∧ (okCall (coo_matvec_mhlo pl gs data row col x shape tr none ctp
        idt dd xd)).backend_config =
        (gs.build_coo_matvec_descriptor dd xd dd idt shape.1 shape.2
          (data.shape.headD 0) tr).2)
    ∧ (∀ (pl : String) (gs : GpuSparse) (data row col x : TType)
      (shape : Nat × Nat) (tr : Bool) (cd : Dtype) (ct : EType)
      (idt dd xd : Dtype),
      (coo_matvec_mhlo pl gs data row col x shape tr (some cd) (some ct)
        idt dd xd).isOk = true →
      ((okOuts (coo_matvec_mhlo pl gs data row col x shape tr (some cd)
        (some ct) idt dd xd)).headD default).etype = ct)
    ∧ (∀ (pl : String) (gs : GpuSparse) (data row col B : TType)
      (shape : Nat × Nat) (tr : Bool) (ctp : Option EType) (xd dd idt : Dtype),
      (coo_matmat_mhlo pl gs data row col B shape tr none ctp
        xd dd idt).isOk = true →
      ((okOuts (coo_matmat_mhlo pl gs data row col B shape tr none ctp
        xd dd idt)).headD default).etype = data.etype
      ∧ (okCall (coo_matmat_mhlo pl gs data row col B shape tr none ctp
        xd dd idt)).backend_config =
        (gs.build_coo_matmat_descriptor dd xd dd idt shape.1 shape.2
          (B.shape.getD 1 0) (data.shape.headD 0) tr).2)
    ∧ (∀ (pl : String) (gs : GpuSparse) (data row col B : TType)
      (shape : Nat × Nat) (tr : Bool) (cd : Dtype) (ct : EType)
      (xd dd idt : Dtype),
      (coo_matmat_mhlo pl gs data row col B shape tr (some cd) (some ct)
        xd dd idt).isOk = true →
      ((okOuts (coo_matmat_mhlo pl gs data row col B shape tr (some cd)
        (some ct) xd dd idt)).headD default).etype = ct) := by
  refine ⟨fun pl gs data indices indptr x shape tr ctp dd idt xd h => ?_,
    fun pl gs data indices indptr x shape tr cd ct dd idt xd h => ?_,
    fun pl gs data indices indptr B shape tr ctp idt dd Bd h => ?_,
    fun pl gs data indices indptr B shape tr cd ct idt dd Bd h => ?_,
    fun pl gs data row col x shape tr ctp idt dd xd h => ?_,
    fun pl gs data row col x shape tr cd ct idt dd xd h => ?_,
    fun pl gs data row col B shape tr ctp xd dd idt h => ?_,
    fun pl gs data row col B shape tr cd ct xd dd idt h => ?_⟩
  · rw [csr_matvec_mhlo_none_eq h]; exact ⟨rfl, rfl⟩
  · rw [csr_matvec_mhlo_some_eq h]; rfl
  · rw [csr_matmat_mhlo_none_eq h]; exact ⟨rfl, rfl⟩
  · rw [csr_matmat_mhlo_some_eq h]; rfl
  · rw [coo_matvec_mhlo_none_eq h]; exact ⟨rfl, rfl⟩
  · rw [coo_matvec_mhlo_some_eq h]; rfl
  · rw [coo_matmat_mhlo_none_eq h]; exact ⟨rfl, rfl⟩
  · rw [coo_matmat_mhlo_some_eq h]; rfl

/-- Witness for C8: concrete runs with defaulted and with caller-specified
compute types; the specified compute type (f64) differs from the storage
type (f32) and shows up in the output element type. -/
theorem compute_dtype_defaulting_witness :
    ((((okOuts (csr_matvec_mhlo "cu" testBackend ⟨[3], EType.f32⟩
      ⟨[3], EType.i32⟩ ⟨[4], EType.i32⟩ ⟨[3], EType.f32⟩ (3, 2) true none none
      Dtype.f32 Dtype.i32 Dtype.f32)).headD default).etype = EType.f32
    ∧ (okCall (csr_matvec_mhlo "cu" testBackend ⟨[3], EType.f32⟩
      ⟨[3], EType.i32⟩ ⟨[4], EType.i32⟩ ⟨[3], EType.f32⟩ (3, 2) true none none
      Dtype.f32 Dtype.i32 Dtype.f32)).backend_config = [3])
    ∧ ((okOuts (csr_matvec_mhlo "cu" testBackend ⟨[3], EType.f32⟩
      ⟨[3], EType.i32⟩ ⟨[4], EType.i32⟩ ⟨[3], EType.f32⟩ (3, 2) true
      (some Dtype.f64) (some EType.f64) Dtype.f32 Dtype.i32
      Dtype.f32)).headD default).etype = EType.f64)
    ∧ ((((okOuts (csr_matmat_mhlo "cu" testBackend ⟨[3], EType.f32⟩
      ⟨[3], EType.i32⟩ ⟨[4], EType.i32⟩ ⟨[3, 5], EType.f32⟩ (3, 2) false none
      none Dtype.i32 Dtype.f32 Dtype.f32)).headD default).etype = EType.f32
    ∧ (okCall (csr_matmat_mhlo "cu" testBackend ⟨[3], EType.f32⟩
      ⟨[3], EType.i32⟩ ⟨[4], EType.i32⟩ ⟨[3, 5], EType.f32⟩ (3, 2) false none
      none Dtype.i32 Dtype.f32 Dtype.f32)).backend_config = [4])
    ∧ ((okOuts (csr_matmat_mhlo "cu" testBackend ⟨[3], EType.f32⟩
      ⟨[3], EType.i32⟩ ⟨[4], EType.i32⟩ ⟨[3, 5], EType.f32⟩ (3, 2) false
      (some Dtype.f64) (some EType.f64) Dtype.i32 Dtype.f32
      Dtype.f32)).headD default).etype = EType.f64)
    ∧ ((((okOuts (coo_matvec_mhlo "cu" testBackend ⟨[2], EType.f32⟩
      ⟨[2], EType.i32⟩ ⟨[2], EType.i32⟩ ⟨[2], EType.f32⟩ (2, 4) true none none
      Dtype.i32 Dtype.f32 Dtype.f32)).headD default).etype = EType.f32
    ∧ (okCall (coo_matvec_mhlo "cu" testBackend ⟨[2], EType.f32⟩
      ⟨[2], EType.i32⟩ ⟨[2], EType.i32⟩ ⟨[2], EType.f32⟩ (2, 4) true none none
      Dtype.i32 Dtype.f32 Dtype.f32)).backend_config = [7])
    ∧ ((okOuts (coo_matvec_mhlo "cu" testBackend ⟨[2], EType.f32⟩
      ⟨[2], EType.i32⟩ ⟨[2], EType.i32⟩ ⟨[2], EType.f32⟩ (2, 4) true
      (some Dtype.f64) (some EType.f64) Dtype.i32 Dtype.f32
      Dtype.f32)).headD default).etype = EType.f64)
    ∧ ((((okOuts (coo_matmat_mhlo "cu" testBackend ⟨[2], EType.f32⟩
      ⟨[2], EType.i32⟩ ⟨[2], EType.i32⟩ ⟨[2, 6], EType.f32⟩ (2, 4) false none
      none Dtype.f32 Dtype.f32 Dtype.i32)).headD default).etype = EType.f32
    ∧ (okCall (coo_matmat_mhlo "cu" testBackend ⟨[2], EType.f32⟩
      ⟨[2], EType.i32⟩ ⟨[2], EType.i32⟩ ⟨[2, 6], EType.f32⟩ (2, 4) false none
      none Dtype.f32 Dtype.f32 Dtype.i32)).backend_config = [8])
    ∧ ((okOuts (coo_matmat_mhlo "cu" testBackend ⟨[2], EType.f32⟩
      ⟨[2], EType.i32⟩ ⟨[2], EType.i32⟩ ⟨[2, 6], EType.f32⟩ (2, 4) false
      (some Dtype.f64) (some EType.f64) Dtype.f32 Dtype.f32
      Dtype.i32)).headD default).etype = EType.f64) :=
  ⟨⟨compute_dtype_defaulting.1 "cu" testBackend ⟨[3], EType.f32⟩
      ⟨[3], EType.i32⟩ ⟨[4], EType.i32⟩ ⟨[3], EType.f32⟩ (3, 2) true none
      Dtype.f32 Dtype.i32 Dtype.f32 rfl,
    compute_dtype_defaulting.2.1 "cu" testBackend ⟨[3], EType.f32⟩
      ⟨[3], EType.i32⟩ ⟨[4], EType.i32⟩ ⟨[3], EType.f32⟩ (3, 2) true Dtype.f64
      EType.f64 Dtype.f32 Dtype.i32 Dtype.f32 rfl⟩,
    ⟨compute_dtype_defaulting.2.2.1 "cu" testBackend ⟨[3], EType.f32⟩
      ⟨[3], EType.i32⟩ ⟨[4], EType.i32⟩ ⟨[3, 5], EType.f32⟩ (3, 2) false none
      Dtype.i32 Dtype.f32 Dtype.f32 rfl,
    compute_dtype_defaulting.2.2.2.1 "cu" testBackend ⟨[3], EType.f32⟩
      ⟨[3], EType.i32⟩ ⟨[4], EType.i32⟩ ⟨[3, 5], EType.f32⟩ (3, 2) false
      Dtype.f64 EType.f64 Dtype.i32 Dtype.f32 Dtype.f32 rfl⟩,
    ⟨compute_dtype_defaulting.2.2.2.2.1 "cu" testBackend ⟨[2], EType.f32⟩
      ⟨[2], EType.i32⟩ ⟨[2], EType.i32⟩ ⟨[2], EType.f32⟩ (2, 4) true none
      Dtype.i32 Dtype.f32 Dtype.f32 rfl,
    compute_dtype_defaulting.2.2.2.2.2.1 "cu" testBackend ⟨[2], EType.f32⟩
      ⟨[2], EType.i32⟩ ⟨[2], EType.i32⟩ ⟨[2], EType.f32⟩ (2, 4) true Dtype.f64
      EType.f64 Dtype.i32 Dtype.f32 Dtype.f32 rfl⟩,
    ⟨compute_dtype_defaulting.2.2.2.2.2.2.1 "cu" testBackend ⟨[2], EType.f32⟩
      ⟨[2], EType.i32⟩ ⟨[2], EType.i32⟩ ⟨[2, 6], EType.f32⟩ (2, 4) false none
      Dtype.f32 Dtype.f32 Dtype.i32 rfl,
    compute_dtype_defaulting.2.2.2.2.2.2.2 "cu" testBackend ⟨[2], EType.f32⟩
      ⟨[2], EType.i32⟩ ⟨[2], EType.i32⟩ ⟨[2, 6], EType.f32⟩ (2, 4) false
      Dtype.f64 EType.f64 Dtype.f32 Dtype.f32 Dtype.i32 rfl⟩⟩

/-- C9: each backend capability flag computed at module load is true exactly
when that backend's library imported successfully and itself reports sparse
support; and invoking any operation of this layer leaves the process state
(the pair of flags) unchanged — the flags are read-only after load. -/
theorem capability_flag_semantics :
    (∀ cu hip : Option SparseLib,
      ((module_load cu hip).cuda_is_supported = true ↔
        ∃ m, cu = some m ∧ m.sparse_supported = true)
      ∧ ((module_load cu hip).rocm_is_supported = true ↔
        ∃ m, hip = some m ∧ m.sparse_supported = true))
    ∧ ∀ (st : ProcessState)
      (op : Unit → Except Err (CustomCallArgs × List TType)),
      (invoke st op).2 = st := by
  refine ⟨fun cu hip => ⟨?_, ?_⟩, fun st op => rfl⟩
  · cases cu with
    | none => simp [module_load, supported_flag]
    | some m => simp [module_load, supported_flag]
  · cases hip with
    | none => simp [module_load, supported_flag]
    | some m => simp [module_load, supported_flag]

/-- Witness for C9: a present, supporting library yields a true flag; an
absent one yields false; and a concrete invocation leaves the state
unchanged. -/
theorem capability_flag_semantics_witness :
    (module_load (some ⟨true⟩) none).cuda_is_supported = true
    ∧ (invoke ⟨true, false⟩ (fun _ => Except.error Err.KernelFailure)).2 =
      ⟨true, false⟩ :=
  ⟨((capability_flag_semantics.1 (some ⟨true⟩) none).1).mpr
      ⟨⟨true⟩, rfl, rfl⟩,
    capability_flag_semantics.2 ⟨true, false⟩
      (fun _ => Except.error Err.KernelFailure)⟩

/-- C10: for both from-dense lowerings, the element type of the returned
`data` result is the dense input's element type, not `data_dtype`; the
`data_dtype` parameter flows only into the backend descriptor query.  Stated
for inputs whose element type differs from `data_dtype`. -/
theorem fromdense_data_etype :
    (∀ (pl : String) (gs : GpuSparse) (mat : TType) (nnz : Nat)
      (idt dd : Dtype) (it : EType),
      mat.etype ≠ EType.ofDtype dd →
      (csr_fromdense_mhlo pl gs mat nnz idt dd it).isOk = true →
      ((okOuts (csr_fromdense_mhlo pl gs mat nnz idt dd it)).headD
        default).etype = mat.etype
      ∧ (okCall (csr_fromdense_mhlo pl gs mat nnz idt dd it)).backend_config =
        (gs.build_csr_fromdense_descriptor dd idt (mat.shape.headD 0)
          (mat.shape.getD 1 0) nnz).2)
    ∧ (∀ (pl : String) (gs : GpuSparse) (mat : TType) (nnz : Nat)
      (dd idt : Dtype) (it : EType),
      mat.etype ≠ EType.ofDtype dd →
      (coo_fromdense_mhlo pl gs mat nnz dd idt it).isOk = true →
      ((okOuts (coo_fromdense_mhlo pl gs mat nnz dd idt it)).headD
        default).etype = mat.etype
      ∧ (okCall (coo_fromdense_mhlo pl gs mat nnz dd idt it)).backend_config =
        (gs.build_coo_fromdense_descriptor dd idt (mat.shape.headD 0)
          (mat.shape.getD 1 0) nnz).2) := by
  refine ⟨fun pl gs mat nnz idt dd it hne h => ?_,
    fun pl gs mat nnz dd idt it hne h => ?_⟩
  · rw [csr_fromdense_mhlo_ok_eq h]; exact ⟨rfl, rfl⟩
  · rw [coo_fromdense_mhlo_ok_eq h]; exact ⟨rfl, rfl⟩

/-- Witness for C10: a dense f64 matrix requested with `data_dtype = f32`
still yields an f64 `data` result, for both formats. -/
theorem fromdense_data_etype_witness :
    (((okOuts (csr_fromdense_mhlo "cu" testBackend ⟨[3, 3], EType.f64⟩ 3
      Dtype.i32 Dtype.f32 EType.i32)).headD default).etype = EType.f64
    ∧ (okCall (csr_fromdense_mhlo "cu" testBackend ⟨[3, 3], EType.f64⟩ 3
      Dtype.i32 Dtype.f32 EType.i32)).backend_config = [2])
    ∧ (((okOuts (coo_fromdense_mhlo "cu" testBackend ⟨[2, 2], EType.f64⟩ 2
      Dtype.f32 Dtype.i32 EType.i32)).headD default).etype = EType.f64
    ∧ (okCall (coo_fromdense_mhlo "cu" testBackend ⟨[2, 2], EType.f64⟩ 2
      Dtype.f32 Dtype.i32 EType.i32)).backend_config = [6]) :=
  ⟨fromdense_data_etype.1 "cu" testBackend ⟨[3, 3], EType.f64⟩ 3 Dtype.i32
      Dtype.f32 EType.i32 (by decide) rfl,
    fromdense_data_etype.2 "cu" testBackend ⟨[2, 2], EType.f64⟩ 2 Dtype.f32
      Dtype.i32 EType.i32 (by decide) rfl⟩
